import Mathlib

/-!
Verification development for the image-generation HTTP service
(fastify-boilerplate).  The TypeScript sources are shallowly embedded:
pure string-template code becomes Lean string functions, the third-party
effects (network fetch, sharp raster operations, headless-browser
screenshots, JS number printing) are abstracted as parameters or symbolic
`Img` constructors, and the filesystem is a map from path segments to
stored buffers.  Each section names the source function it embeds.
-/

set_option maxRecDepth 10000

/-! ## Characters and counting helpers -/

/-- Number of occurrences of character `c` in string `s`. -/
def countChar (c : Char) (s : String) : Nat := s.data.count c

/-! ## escapeXml (src/footballGenerate.ts lines 177-184, identical copies in
src/imageGenerate.ts lines 432-439 and the movie route file lines 169-176).

The source is a chain of five global single-character replacements:
`.replace(/&/g,"&amp;").replace(/</g,"&lt;").replace(/>/g,"&gt;")
 .replace(/"/g,"&quot;").replace(/'/g,"&#39;")`.
A global replacement of one character is exactly a character-wise map,
embedded below as `replaceChar`. -/

/-- Replacement text for `&`. -/
def ampEnt : List Char := ['&', 'a', 'm', 'p', ';']

/-- Replacement text for `<`. -/
def ltEnt : List Char := ['&', 'l', 't', ';']

/-- Replacement text for `>`. -/
def gtEnt : List Char := ['&', 'g', 't', ';']

/-- Replacement text for the double quote. -/
def quotEnt : List Char := ['&', 'q', 'u', 'o', 't', ';']

/-- Replacement text for the apostrophe. -/
def aposEnt : List Char := ['&', '#', '3', '9', ';']

/-- Global replacement of the single character `c` by the text `rep`,
the semantics of `.replace(/c/g, rep)`. -/
def replaceChar (c : Char) (rep : List Char) : List Char → List Char
  | [] => []
  | a :: t => (if a = c then rep else [a]) ++ replaceChar c rep t

/-- The five replacement passes of `escapeXml`, in source order
(`&` first, then `<`, `>`, `"`, `'`). -/
def escapeXmlL (s : List Char) : List Char :=
  replaceChar '\'' aposEnt
    (replaceChar '"' quotEnt
      (replaceChar '>' gtEnt
        (replaceChar '<' ltEnt
          (replaceChar '&' ampEnt s))))

/-- String wrapper for `escapeXml`. -/
def escapeXml (s : String) : String := String.mk (escapeXmlL s.data)

/-- Per-character view of the escaping: what one input character
contributes to the output. -/
def escChar (a : Char) : List Char :=
  if a = '&' then ampEnt
  else if a = '<' then ltEnt
  else if a = '>' then gtEnt
  else if a = '"' then quotEnt
  else if a = '\'' then aposEnt
  else [a]

/-- A character list where every markup-special character occurs only as
part of one of the five entities produced by `escapeXml`: the formal
reading of "no unescaped special character outside the produced
entities". -/
inductive EscapedChunks : List Char → Prop where
  | nil : EscapedChunks []
  | plain (a : Char) (t : List Char) (h1 : a ≠ '&') (h2 : a ≠ '<') (h3 : a ≠ '>')
      (h4 : a ≠ '"') (h5 : a ≠ '\'') (ht : EscapedChunks t) : EscapedChunks (a :: t)
  | amp (t : List Char) (ht : EscapedChunks t) : EscapedChunks (ampEnt ++ t)
  | lt (t : List Char) (ht : EscapedChunks t) : EscapedChunks (ltEnt ++ t)
  | gt (t : List Char) (ht : EscapedChunks t) : EscapedChunks (gtEnt ++ t)
  | quot (t : List Char) (ht : EscapedChunks t) : EscapedChunks (quotEnt ++ t)
  | apos (t : List Char) (ht : EscapedChunks t) : EscapedChunks (aposEnt ++ t)

/-- One step of the inverse entity substitution: if the list starts with
one of the five entities, return the character it stands for together
with the remainder after the entity. -/
def entStep (l : List Char) : Option (Char × List Char) :=
  if ampEnt.isPrefixOf l then some ('&', l.drop 5)
  else if ltEnt.isPrefixOf l then some ('<', l.drop 4)
  else if gtEnt.isPrefixOf l then some ('>', l.drop 4)
  else if quotEnt.isPrefixOf l then some ('"', l.drop 6)
  else if aposEnt.isPrefixOf l then some ('\'', l.drop 5)
  else none

/-- The inverse entity substitution: a left-to-right scan replacing each
of the five entities by the character it stands for. -/
def unescapeXml (l : List Char) : List Char :=
  match l with
  | [] => []
  | a :: t =>
    match h : entStep (a :: t) with
    | some cr => cr.1 :: unescapeXml cr.2
    | none => a :: unescapeXml t
termination_by l.length
decreasing_by
  · unfold entStep at h
    split at h
    · cases h; simp; omega
    · split at h
      · cases h; simp; omega
      · split at h
        · cases h; simp; omega
        · split at h
          · cases h; simp; omega
          · split at h
            · cases h; simp; omega
            · cases h
  · simp

/-! ## Paths and the uploads directory

Paths are modelled as lists of segments relative to the filesystem root.
`pathJoin` embeds Node's `path.join(dir, name)`: concatenate, split on
the separator, and lexically normalise `.`, `..` and empty segments
(`..` above the root stays at the root). -/

/-- Split helper over the character list: cut at separators, drop empty
segments (`cur` holds the current segment reversed). -/
def splitPathAux : List Char → List Char → List String
  | [], cur => if cur = [] then [] else [String.mk cur.reverse]
  | c :: rest, cur =>
    if c = '/' then
      (if cur = [] then [] else [String.mk cur.reverse]) ++ splitPathAux rest []
    else splitPathAux rest (c :: cur)

/-- Split a filename on the path separator, dropping empty segments. -/
def splitPath (s : String) : List String := splitPathAux s.data []

/-- Lexical normalisation of a segment list, as done by `path.join`. -/
def normSegs (segs : List String) : List String :=
  segs.foldl
    (fun acc seg =>
      if seg = "" ∨ seg = "." then acc
      else if seg = ".." then acc.dropLast
      else acc ++ [seg]) []

/-- Node `path.join(dir, name)` on an absolute directory `dir`. -/
def pathJoin (dir : List String) (name : String) : List String :=
  normSegs (dir ++ splitPath name)

/-- UPLOADS_DIR = path.join(process.cwd(), "temp-images")
(src/footballGenerate.ts line 13; the same constant appears in each route file). -/
def uploadsDirSegs (cwd : List String) : List String := cwd ++ ["temp-images"]

/-! ## Symbolic raster pipeline

The sharp / puppeteer operations are third-party; they are embedded as
symbolic constructors so that what the repository's code builds (and with
which arguments) is fully recorded.  A `Buffer` holding SVG or HTML text
keeps the text; `svg` additionally records the width/height attributes its
builder wrote into the markup, which is what sharp reads back when
compositing. -/

inductive Img : Type where
  /-- A raw downloaded buffer (`response.buffer()`). -/
  | fetched (bytes : List Nat) : Img
  /-- A buffer holding SVG text whose root element carries the given
  width/height attributes (`Buffer.from(svgString)`). -/
  | svg (w h : ℚ) (text : String) : Img
  /-- A buffer holding HTML text (`Buffer.from(html)`). -/
  | htmlBuf (text : String) : Img
  /-- A headless-browser JPEG screenshot of the given markup at the given
  viewport. -/
  | screenshot (html : String) (w h : ℚ) (quality : ℕ) : Img
  /-- `sharp(i).resize(w, h, { fit: "cover" })`. -/
  | resizedCover (i : Img) (w h : ℚ) : Img
  /-- `sharp(i).resize(w, h, { fit: "inside" })`. -/
  | resizedInside (i : Img) (w h : ℚ) : Img
  /-- `.png()` re-encoding. -/
  | png (i : Img) : Img
  /-- `.jpeg({ quality })` encoding. -/
  | jpeg (i : Img) (quality : ℕ) : Img
  /-- `.composite(ops)`: each op is (input, left?, top?), blend "over". -/
  | composite (base : Img) (ops : List (Img × Option ℚ × Option ℚ)) : Img

/-- Declared width of a buffer: for resize operations the requested
target width, for SVG buffers the width attribute sharp reads. -/
def imgWidth : Img → ℚ
  | .fetched _ => 0
  | .svg w _ _ => w
  | .htmlBuf _ => 0
  | .screenshot _ w _ _ => w
  | .resizedCover _ w _ => w
  | .resizedInside _ w _ => w
  | .png i => imgWidth i
  | .jpeg i _ => imgWidth i
  | .composite b _ => imgWidth b

/-- Declared height of a buffer, dual to `imgWidth`. -/
def imgHeight : Img → ℚ
  | .fetched _ => 0
  | .svg _ h _ => h
  | .htmlBuf _ => 0
  | .screenshot _ _ h _ => h
  | .resizedCover _ _ h => h
  | .resizedInside _ _ h => h
  | .png i => imgHeight i
  | .jpeg i _ => imgHeight i
  | .composite b _ => imgHeight b

/-- Outcome of one `fetch(url)` call: either the promise rejects
(network failure) or an HTTP response with a status and body arrives. -/
inductive FetchResult : Type where
  | netError : FetchResult
  | response (status : ℕ) (bytes : List ℕ) : FetchResult

/-- `response.ok` of node-fetch: status in the 2xx range. -/
def respOk (status : ℕ) : Bool := decide (200 ≤ status) && decide (status < 300)

/-- The ambient third-party world of one request: what each URL fetch
returns, which buffers sharp can decode, how JS prints numbers into
template strings, and whether puppeteer is importable. -/
structure World : Type where
  fetch : String → FetchResult
  decodable : List ℕ → Bool
  showNum : ℚ → String
  puppeteer : Bool

/-! ## createPlaceholderImage and downloadImageWithFallback
(src/footballGenerate.ts lines 112-138; the identical movie-route copy). -/

/-- SVG text of the placeholder (src/footballGenerate.ts lines 113-116). -/
def placeholderSvgText (sn : ℚ → String) (width height : ℚ) (color text : String) : String :=
  "<svg width=\"" ++ sn width ++ "\" height=\"" ++ sn height ++
    "\" xmlns=\"http://www.w3.org/2000/svg\">\n\t\t<rect width=\"100%\" height=\"100%\" fill=\"" ++
    color ++ "\"/>\n\t\t<text x=\"50%\" y=\"50%\" font-family=\"Arial\" font-size=\"20\" fill=\"white\" text-anchor=\"middle\" dy=\".3em\">" ++
    text ++ "</text>\n\t</svg>"

/-- createPlaceholderImage: a flat-colour SVG buffer of the requested
dimensions with a short label (the label is interpolated raw, as in the
source). -/
def createPlaceholderImage (sn : ℚ → String) (width height : ℚ) (color text : String) : Img :=
  .svg width height (placeholderSvgText sn width height color text)

/-- The body of the `try` block of downloadImageWithFallback: fetch,
throw on a non-ok status, decode and resize.  Any failure is an
`Except.error`. -/
def downloadImage (w : World) (url : String) (width height : ℚ) : Except String Img :=
  match w.fetch url with
  | .netError => .error "fetch failed"
  | .response status bytes =>
    if !respOk status then .error ("HTTP " ++ toString status)
    else if w.decodable bytes then .ok (.png (.resizedCover (.fetched bytes) width height))
    else .error "decode failed"

/-- downloadImageWithFallback: the catch handler substitutes a grey
placeholder of the same requested dimensions for every failure. -/
def downloadImageWithFallback (w : World) (url : String) (width height : ℚ) (fallbackText : String) : Img :=
  match downloadImage w url width height with
  | .ok img => img
  | .error _ => createPlaceholderImage w.showNum width height "#666666" fallbackText

/-! ## Football schedule data model (zod schema, src/footballGenerate.ts
lines 25-50).  Optional fields become `Option`; a parsed body is a value
of these structures. -/

structure Canal : Type where
  channelName : String
  logoUrl : String
deriving DecidableEq

structure Jogo : Type where
  timeHome : String
  logoHomeUrl : String
  timeAway : String
  logoAwayUrl : String
  horario : String
  canais : Option (List Canal)
deriving DecidableEq

structure FootballBody : Type where
  logoEmpresaUrl : String
  data : String
  jogos : List Jogo
  corFundo : Option String
  fundoUrl : Option String
  whatsapp : Option String
deriving DecidableEq

/-- WATERMARK_TEXT (src/footballGenerate.ts line 11). -/
def WATERMARK_TEXT : String := "app.notifique.net"

/-- WATERMARK_ENABLED (src/footballGenerate.ts line 12). -/
def WATERMARK_ENABLED : Bool := true

/-- JS `String.prototype.toUpperCase`, character-wise (kept as an explicit
map over the character list). -/
def jsToUpper (s : String) : String := String.mk (s.data.map Char.toUpper)

/-! ## SVG overlay builders (src/footballGenerate.ts lines 186-472)

Each builder takes `sn : ℚ → String`, the JS number-to-string conversion
used by template interpolation, which is kept abstract. -/

/-- createGameCard (lines 187-203). -/
def createGameCard (sn : ℚ → String) (width gameY : ℚ) (gameIndex : ℕ) (gameHeight : ℚ) : String :=
  "\n\t\t\t<defs>\n\t\t\t\t<linearGradient id=\"gameGrad" ++ toString gameIndex ++
  "\" x1=\"0%\" y1=\"0%\" x2=\"100%\" y2=\"0%\">\n\t\t\t\t\t<stop offset=\"0%\" style=\"stop-color:rgba(0,0,0,0.6);stop-opacity:1\" />\n\t\t\t\t\t<stop offset=\"50%\" style=\"stop-color:rgba(0,0,0,0.8);stop-opacity:1\" />\n\t\t\t\t\t<stop offset=\"100%\" style=\"stop-color:rgba(0,0,0,0.6);stop-opacity:1\" />\n\t\t\t\t</linearGradient>\n\t\t\t\t<filter id=\"gameShadow" ++ toString gameIndex ++
  "\" x=\"-10%\" y=\"-10%\" width=\"120%\" height=\"120%\">\n\t\t\t\t\t<feDropShadow dx=\"0\" dy=\"6\" stdDeviation=\"8\" flood-color=\"rgba(0,0,0,0.5)\"/>\n\t\t\t\t</filter>\n\t\t\t</defs>\n\t\t\t<rect x=\"" ++ sn (width * 0.05) ++
  "\" y=\"" ++ sn (gameY - 10) ++ "\" width=\"" ++ sn (width * 0.9) ++ "\" height=\"" ++ sn gameHeight ++
  "\" \n\t\t\t\t  rx=\"25\" fill=\"url(#gameGrad" ++ toString gameIndex ++
  ")\" stroke=\"rgba(0,255,65,0.4)\" stroke-width=\"2\" \n\t\t\t\t  filter=\"url(#gameShadow" ++ toString gameIndex ++ ")\"/>\n\t\t"

/-- createTimeDisplay (lines 206-213): the game time, escaped. -/
def createTimeDisplay (sn : ℚ → String) (centerX gameY : ℚ) (horario : String) (timeFontSize : ℚ) : String :=
  "\n\t\t\t<rect x=\"" ++ sn (centerX - 60) ++ "\" y=\"" ++ sn (gameY + 5) ++
  "\" width=\"120\" height=\"35\" rx=\"18\" \n\t\t\t\t  fill=\"linear-gradient(45deg, #ffff00, #ffd700)\" stroke=\"rgba(0,0,0,0.3)\" stroke-width=\"2\"/>\n\t\t\t<text x=\"" ++
  sn centerX ++ "\" y=\"" ++ sn (gameY + 28) ++ "\" font-size=\"" ++ sn timeFontSize ++
  "\" \n\t\t\t\t  class=\"time\" text-anchor=\"middle\">" ++ escapeXml horario ++ "</text>\n\t\t"

/-- Alignment of a team name. -/
inductive TeamAlign : Type where
  | left : TeamAlign
  | center : TeamAlign
  | right : TeamAlign
deriving DecidableEq

/-- createTeamDisplay (lines 216-230): upper-cased, escaped team name. -/
def createTeamDisplay (sn : ℚ → String) (teamName : String) (x y teamFontSize : ℚ)
    (alignment : TeamAlign) : String :=
  let textAnchor := match alignment with
    | .left => "start"
    | .right => "end"
    | .center => "middle"
  "\n\t\t\t<text x=\"" ++ sn x ++ "\" y=\"" ++ sn y ++ "\" font-size=\"" ++ sn teamFontSize ++
  "\" class=\"team\" text-anchor=\"" ++ textAnchor ++ "\">\n\t\t\t\t" ++
  escapeXml (jsToUpper teamName) ++ "\n\t\t\t</text>\n\t\t"

/-- createVsSymbol (lines 233-237). -/
def createVsSymbol (sn : ℚ → String) (centerX gameY teamFontSize : ℚ) : String :=
  "\n\t\t\t<text x=\"" ++ sn centerX ++ "\" y=\"" ++ sn (gameY + 70) ++ "\" font-size=\"" ++
  sn (teamFontSize * 1.1) ++ "\" class=\"vs\" text-anchor=\"middle\">×</text>\n\t\t"

/-- The per-channel text loop inside createChannelDisplay (lines 266-273):
one `<text>` element per shown channel, name escaped. -/
def channelTexts (sn : ℚ → String) (startX gameY estPairW channelFontSize : ℚ) :
    List Canal → ℕ → String
  | [], _ => ""
  | c :: rest, i =>
    "\n\t\t\t<text x=\"" ++ sn (startX + (i : ℚ) * estPairW + 20 + 5) ++ "\" y=\"" ++
    sn (gameY + 128) ++ "\" font-size=\"" ++ sn (channelFontSize * 0.8) ++
    "\" class=\"channel\" text-anchor=\"start\">\n\t\t\t\t" ++ escapeXml c.channelName ++
    "\n\t\t\t</text>\n\t\t" ++ channelTexts sn startX gameY estPairW channelFontSize rest (i + 1)

/-- createChannelDisplay (lines 240-288): box, up to 3 channel names, and
a "+X" overflow marker. -/
def createChannelDisplay (sn : ℚ → String) (centerX gameY : ℚ) (canais : List Canal)
    (channelFontSize : ℚ) : String :=
  if canais.length = 0 then ""
  else
    let maxChannelsToShow := min canais.length 3
    let channelLogoSize : ℚ := 20
    let estimatedPairWidth : ℚ := channelLogoSize + 5 + 60
    let totalWidth : ℚ := (maxChannelsToShow : ℚ) * estimatedPairWidth
    let startX : ℚ := centerX - totalWidth / 2
    let boxWidth : ℚ := max 200 (totalWidth + 20)
    let box :=
      "\n\t\t\t<rect x=\"" ++ sn (centerX - boxWidth / 2) ++ "\" y=\"" ++ sn (gameY + 110) ++
      "\" width=\"" ++ sn boxWidth ++
      "\" height=\"28\" rx=\"14\" \n\t\t\t\t  fill=\"rgba(0,0,0,0.9)\" stroke=\"rgba(255,255,255,0.3)\" stroke-width=\"1\"/>\n\t\t"
    let texts := channelTexts sn startX gameY estimatedPairWidth channelFontSize
      (canais.take maxChannelsToShow) 0
    let more :=
      if canais.length > maxChannelsToShow then
        "\n\t\t\t<text x=\"" ++ sn (startX + (maxChannelsToShow : ℚ) * estimatedPairWidth) ++
        "\" y=\"" ++ sn (gameY + 128) ++ "\" font-size=\"" ++ sn (channelFontSize * 0.8) ++
        "\" class=\"channel\" text-anchor=\"start\">\n\t\t\t\t+" ++
        toString (canais.length - maxChannelsToShow) ++ "\n\t\t\t</text>\n\t\t"
      else ""
    box ++ texts ++ more

/-- createHeader (lines 291-309): fixed title plus the escaped date. -/
def createHeader (sn : ℚ → String) (width : ℚ) (data : String)
    (titleFontSize dateFontSize topMargin : ℚ) : String :=
  "\n\t\t<!-- Main title \"JOGOS DO DIA\" centered at top -->\n\t\t<text x=\"" ++
  sn (width / 2) ++ "\" y=\"" ++ sn topMargin ++ "\" font-size=\"" ++ sn titleFontSize ++
  "\" class=\"main-title\" text-anchor=\"middle\">JOGOS DO DIA</text>\n\t\t\n\t\t<!-- Date centered below title -->\n\t\t<text x=\"" ++
  sn (width / 2) ++ "\" y=\"" ++ sn (topMargin + 60) ++ "\" font-size=\"" ++ sn dateFontSize ++
  "\" class=\"date-title\" text-anchor=\"middle\">" ++ escapeXml data ++ "</text>\n\t"

/-- createContactSection (lines 312-320): escaped WhatsApp contact. -/
def createContactSection (sn : ℚ → String) (width contactY : ℚ) (whatsapp : String)
    (contactFontSize : ℚ) : String :=
  "\n\t\t<rect x=\"" ++ sn (width * 0.05) ++ "\" y=\"" ++ sn contactY ++ "\" width=\"" ++
  sn (width * 0.9) ++
  "\" height=\"80\" rx=\"40\" \n\t\t\t  fill=\"linear-gradient(45deg, #25d366, #128c7e)\" stroke=\"rgba(255,255,255,0.4)\" stroke-width=\"3\"/>\n\t\t<text x=\"" ++
  sn (width / 2) ++ "\" y=\"" ++ sn (contactY + 50) ++ "\" font-size=\"" ++ sn contactFontSize ++
  "\" class=\"contact\" text-anchor=\"middle\">\n\t\t\t📱 " ++ escapeXml whatsapp ++
  "\n\t\t</text>\n\t"

/-- createWatermark (lines 323-330). -/
def createWatermark (sn : ℚ → String) (width height watermarkFontSize : ℚ) : String :=
  "\n\t\t<text x=\"" ++ sn (width / 2) ++ "\" y=\"" ++ sn (height - 30) ++ "\" font-size=\"" ++
  sn watermarkFontSize ++ "\" class=\"watermark\" text-anchor=\"middle\">\n\t\t\t" ++
  escapeXml WATERMARK_TEXT ++ "\n\t\t</text>\n\t"

/-- createGameSection (lines 333-367): card, time, two teams, the VS
symbol and the optional channel block. -/
def createGameSection (sn : ℚ → String) (width gameY : ℚ) (gameIndex : ℕ) (jogo : Jogo)
    (teamFontSize timeFontSize channelFontSize : ℚ) : String :=
  let centerX := width / 2
  let card := createGameCard sn width gameY gameIndex 120
  let time := createTimeDisplay sn centerX gameY jogo.horario timeFontSize
  let home := createTeamDisplay sn jogo.timeHome (width * 0.18) (gameY + 65) teamFontSize .left
  let vs := createVsSymbol sn centerX gameY teamFontSize
  let away := createTeamDisplay sn jogo.timeAway (width * 0.82) (gameY + 65) teamFontSize .right
  let channels :=
    match jogo.canais with
    | some cs => if cs.length > 0 then createChannelDisplay sn centerX gameY cs channelFontSize else ""
    | none => ""
  card ++ time ++ home ++ vs ++ away ++ channels

/-- The opening of the overlay SVG with its style block
(createFootballScheduleOverlay, lines 392-449); CSS braces and quotes are
written as character escapes. -/
def footballOverlayHeader (sn : ℚ → String) (width height : ℚ) : String :=
  "\n\t\t<svg width=\"" ++
  sn width ++
  "\" height=\"" ++
  sn height ++
  "\" xmlns=\"http://www.w3.org/2000/svg\">\n\t\t\t<defs>\n\t\t\t\t<style>\n\t\t\t\t\t.main-title \x7b \n\t\t\t\t\t\tfont-family: \x27Arial Black\x27, Arial, sans-serif; \n\t\t\t\t\t\tfont-weight: 900; \n\t\t\t\t\t\tfill: #00ff41; \n\t\t\t\t\t\ttext-shadow: 3px 3px 6px rgba(0,0,0,0.8);\n\t\t\t\t\t\tletter-spacing: 3px;\n\t\t\t\t\t\x7d\n\t\t\t\t\t.date-title \x7b \n\t\t\t\t\t\tfont-family: \x27Arial Black\x27, Arial, sans-serif; \n\t\t\t\t\t\tfont-weight: 900; \n\t\t\t\t\t\tfill: white; \n\t\t\t\t\t\ttext-shadow: 2px 2px 4px rgba(0,0,0,0.8);\n\t\t\t\t\t\tletter-spacing: 2px;\n\t\t\t\t\t\x7d\n\t\t\t\t\t.team \x7b \n\t\t\t\t\t\tfont-family: \x27Arial Black\x27, Arial, sans-serif; \n\t\t\t\t\t\tfont-weight: 900; \n\t\t\t\t\t\tfill: white; \n\t\t\t\t\t\ttext-shadow: 2px 2px 4px rgba(0,0,0,0.8);\n\t\t\t\t\t\tletter-spacing: 1.5px;\n\t\t\t\t\t\x7d\n\t\t\t\t\t.time \x7b \n\t\t\t\t\t\tfont-family: \x27Arial Black\x27, Arial, sans-serif; \n\t\t\t\t\t\tfont-weight: 900; \n\t\t\t\t\t\tfill: #000; \n\t\t\t\t\t\ttext-shadow: 1px 1px 2px rgba(255,255,255,0.3);\n\t\t\t\t\t\x7d\n\t\t\t\t\t.channel \x7b \n\t\t\t\t\t\tfont-family: Arial, sans-serif; \n\t\t\t\t\t\tfill: white; \n\t\t\t\t\t\tfont-weight: 700;\n\t\t\t\t\t\ttext-shadow: 1px 1px 2px rgba(0,0,0,0.8);\n\t\t\t\t\t\x7d\n\t\t\t\t\t.vs \x7b \n\t\t\t\t\t\tfont-family: \x27Arial Black\x27, Arial, sans-serif; \n\t\t\t\t\t\tfont-weight: 900; \n\t\t\t\t\t\tfill: #00ff41; \n\t\t\t\t\t\ttext-shadow: 2px 2px 4px rgba(0,0,0,0.8);\n\t\t\t\t\t\x7d\n\t\t\t\t\t.contact \x7b \n\t\t\t\t\t\tfont-family: \x27Arial Black\x27, Arial, sans-serif; \n\t\t\t\t\t\tfill: white; \n\t\t\t\t\t\tfont-weight: 900;\n\t\t\t\t\t\ttext-shadow: 2px 2px 4px rgba(0,0,0,0.8);\n\t\t\t\t\t\tletter-spacing: 1px;\n\t\t\t\t\t\x7d\n\t\t\t\t\t.watermark \x7b \n\t\t\t\t\t\tfont-family: Arial, sans-serif; \n\t\t\t\t\t\tfill: rgba(255,255,255,0.6); \n\t\t\t\t\t\tfont-weight: 500;\n\t\t\t\t\t\x7d\n\t\t\t\t</style>\n\t\t\t</defs>\n\t"

/-- The `jogos.forEach` loop of createFootballScheduleOverlay
(lines 455-458). -/
def gameSections (sn : ℚ → String) (width gameStartY gameSpacing : ℚ)
    (teamFontSize timeFontSize channelFontSize : ℚ) : List Jogo → ℕ → String
  | [], _ => ""
  | j :: rest, idx =>
    createGameSection sn width (gameStartY + (idx : ℚ) * gameSpacing) idx j
      teamFontSize timeFontSize channelFontSize ++
    gameSections sn width gameStartY gameSpacing teamFontSize timeFontSize channelFontSize rest (idx + 1)

/-- createFootballScheduleOverlay (src/footballGenerate.ts lines 370-472):
responsive font sizes, header, one section per game, optional contact
block, watermark. -/
def createFootballScheduleOverlay (sn : ℚ → String) (width height : ℚ) (data : String)
    (jogos : List Jogo) (whatsapp : Option String) : String :=
  let titleFontSize := min (width * 0.12) 80
  let dateFontSize := min (width * 0.08) 60
  let teamFontSize := min (width * 0.06) 45
  let timeFontSize := min (width * 0.05) 38
  let channelFontSize := min (width * 0.04) 30
  let contactFontSize := min (width * 0.07) 50
  let watermarkFontSize := min (width * 0.03) 24
  let topMargin : ℚ := 80
  let gameStartY : ℚ := 200
  let gameSpacing : ℚ := 180
  let contactY : ℚ := gameStartY + (jogos.length : ℚ) * gameSpacing + 60
  let header := createHeader sn width data titleFontSize dateFontSize topMargin
  let games := gameSections sn width gameStartY gameSpacing teamFontSize timeFontSize channelFontSize jogos 0
  let contact :=
    match whatsapp with
    | some wa => createContactSection sn width contactY wa contactFontSize
    | none => ""
  let watermark :=
    if WATERMARK_ENABLED then createWatermark sn width height watermarkFontSize else ""
  footballOverlayHeader sn width height ++ header ++ games ++ contact ++ watermark ++ "</svg>"

/-! ## Football gradient background and compositing
(src/footballGenerate.ts lines 140-174 and 474-708). -/

/-- Value of one hex digit (0 for a non-hex character; the NaN behaviour
of `parseInt` on malformed colour strings is outside the claims). -/
def hexDigit (c : Char) : ℤ :=
  if '0' ≤ c ∧ c ≤ '9' then (c.toNat - '0'.toNat : ℕ)
  else if 'a' ≤ c ∧ c ≤ 'f' then ((c.toNat - 'a'.toNat : ℕ) + 10 : ℕ)
  else if 'A' ≤ c ∧ c ≤ 'F' then ((c.toNat - 'A'.toNat : ℕ) + 10 : ℕ)
  else 0

/-- `parseInt(s, 16)` on a two-character slice. -/
def hexByte (s : List Char) : ℤ :=
  match s with
  | [a, b] => 16 * hexDigit a + hexDigit b
  | _ => 0

/-- `color.replace("#", "")`: remove the first occurrence of a character. -/
def removeFirst (c : Char) : List Char → List Char
  | [] => []
  | a :: t => if a = c then t else a :: removeFirst c t

/-- createFootballGradientBackground (lines 141-174). -/
def createFootballGradientBackground (sn : ℚ → String) (width height : ℚ) (color : String) : Img :=
  let baseColor := removeFirst '#' color.data
  let r := hexByte (baseColor.take 2)
  let g := hexByte ((baseColor.drop 2).take 2)
  let b := hexByte ((baseColor.drop 4).take 2)
  .svg width height
    ("\n\t\t<svg width=\"" ++
      sn width ++
      "\" height=\"" ++
      sn height ++
      "\" xmlns=\"http://www.w3.org/2000/svg\">\n\t\t\t<defs>\n\t\t\t\t<radialGradient id=\"footballGrad\" cx=\"50%\" cy=\"30%\">\n\t\t\t\t\t<stop offset=\"0%\" style=\"stop-color:rgb(" ++
      toString (min 255 (r + 40)) ++
      "," ++
      toString (min 255 (g + 40)) ++
      "," ++
      toString (min 255 (b + 40)) ++
      ");stop-opacity:1\" />\n\t\t\t\t\t<stop offset=\"60%\" style=\"stop-color:rgb(" ++
      toString r ++
      "," ++
      toString g ++
      "," ++
      toString b ++
      ");stop-opacity:1\" />\n\t\t\t\t\t<stop offset=\"100%\" style=\"stop-color:rgb(" ++
      toString (max 0 (r - 60)) ++
      "," ++
      toString (max 0 (g - 60)) ++
      "," ++
      toString (max 0 (b - 60)) ++
      ");stop-opacity:1\" />\n\t\t\t\t</radialGradient>\n\t\t\t\t<pattern id=\"footballPattern\" patternUnits=\"userSpaceOnUse\" width=\"100\" height=\"100\" patternTransform=\"rotate(45)\">\n\t\t\t\t\t<rect width=\"100\" height=\"100\" fill=\"url(#footballGrad)\"/>\n\t\t\t\t\t<circle cx=\"50\" cy=\"50\" r=\"40\" fill=\"none\" stroke=\"rgba(255,255,255,0.03)\" stroke-width=\"2\"/>\n\t\t\t\t</pattern>\n\t\t\t</defs>\n\t\t\t<rect width=\"100%\" height=\"100%\" fill=\"url(#footballPattern)\" />\n\t\t\t<!-- Decorative side elements -->\n\t\t\t<rect x=\"" ++
      sn (width - 8) ++
      "\" y=\"0\" width=\"8\" height=\"100%\" fill=\"rgba(0,255,0,0.6)\" />\n\t\t</svg>\n\t")

/-- JS `Math.round` as a rational-to-rational value (round half up). -/
def jsRound (x : ℚ) : ℚ := ((round x : ℤ) : ℚ)

/-- List indexing `teamLogos[i]` (always in range in the source). -/
def getLogoD (l : List Img) (n : ℕ) : Img := (l.get? n).getD (.fetched [])

/-- Logo placement variants of createTeamLogoComposite. -/
inductive LogoPositioning : Type where
  | sides : LogoPositioning
  | inline : LogoPositioning
deriving DecidableEq

/-- createTeamLogoComposite (lines 475-540): resize the two team logos of
game `gameIndex` and position them left and right. -/
def createTeamLogoComposite (teamLogos : List Img) (gameIndex : ℕ) (gameY width : ℚ)
    (teamLogoSize : ℚ) (positioning : LogoPositioning) : List (Img × Option ℚ × Option ℚ) :=
  let logoHomeResized :=
    .png (.resizedInside (getLogoD teamLogos (gameIndex * 2)) (jsRound teamLogoSize) (jsRound teamLogoSize))
  let logoAwayResized :=
    .png (.resizedInside (getLogoD teamLogos (gameIndex * 2 + 1)) (jsRound teamLogoSize) (jsRound teamLogoSize))
  match positioning with
  | .sides =>
    [(logoHomeResized, some (jsRound (width * 0.15)), some (jsRound (gameY + 25))),
     (logoAwayResized, some (jsRound (width * 0.75)), some (jsRound (gameY + 25)))]
  | .inline =>
    [(logoHomeResized, some (jsRound (width * 0.08)), some (jsRound (gameY + 35))),
     (logoAwayResized, some (jsRound (width * 0.88)), some (jsRound (gameY + 35)))]

/-- Placement variants of createCompanyLogoComposite. -/
inductive CompanyLogoPos : Type where
  | bottomCenter : CompanyLogoPos
  | topRight : CompanyLogoPos
deriving DecidableEq

/-- createCompanyLogoComposite (lines 543-573). -/
def createCompanyLogoComposite (logoBuffer : Img) (logoSize width logoY height : ℚ)
    (position : CompanyLogoPos) : Img × Option ℚ × Option ℚ :=
  let logoResized := .png (.resizedCover logoBuffer (jsRound logoSize) (jsRound logoSize))
  match position with
  | .bottomCenter =>
    (logoResized, some (jsRound ((width - logoSize) / 2)), some (min logoY (height - logoSize - 60)))
  | .topRight =>
    (logoResized, some (width - jsRound logoSize - 30), some 30)

/-- The loop body of createChannelLogoComposite (lines 593-616): fetch and
place one channel logo per shown channel. -/
def channelLogoOps (w : World) (startX gameY estPairW channelLogoSize : ℚ) :
    List Canal → ℕ → List (Img × Option ℚ × Option ℚ)
  | [], _ => []
  | c :: rest, i =>
    let channelLogo := downloadImageWithFallback w c.logoUrl channelLogoSize channelLogoSize
      (String.mk (c.channelName.data.take 2))
    let logoResized := .png (.resizedInside channelLogo channelLogoSize channelLogoSize)
    (logoResized, some (jsRound (startX + (i : ℚ) * estPairW)), some (jsRound (gameY + 118))) ::
      channelLogoOps w startX gameY estPairW channelLogoSize rest (i + 1)

/-- createChannelLogoComposite (lines 576-619). -/
def createChannelLogoComposite (w : World) (canais : List Canal) (gameY width : ℚ)
    (channelLogoSize : ℚ) : List (Img × Option ℚ × Option ℚ) :=
  if canais.length = 0 then []
  else
    let centerX := width / 2
    let maxChannelsToShow := min canais.length 3
    let estimatedPairWidth : ℚ := channelLogoSize + 5 + 60
    let totalWidth : ℚ := (maxChannelsToShow : ℚ) * estimatedPairWidth
    let startX := centerX - totalWidth / 2
    channelLogoOps w startX gameY estimatedPairWidth channelLogoSize
      (canais.take maxChannelsToShow) 0

/-- The per-game composite accumulation of createFootballScheduleImage
(lines 683-698): team logos, then channel logos when present. -/
def perGameOps (w : World) (teamLogos : List Img) (width gameStartY gameSpacing : ℚ) :
    List Jogo → ℕ → List (Img × Option ℚ × Option ℚ)
  | [], _ => []
  | j :: rest, i =>
    let gameY := gameStartY + (i : ℚ) * gameSpacing
    let teamLogoOps := createTeamLogoComposite teamLogos i gameY width 70 .inline
    let chOps :=
      match j.canais with
      | some cs => if cs.length > 0 then createChannelLogoComposite w cs gameY width 20 else []
      | none => []
    teamLogoOps ++ chOps ++ perGameOps w teamLogos width gameStartY gameSpacing rest (i + 1)

/-- The team-logo download loop (lines 645-652). -/
def downloadTeamLogos (w : World) : List Jogo → List Img
  | [] => []
  | j :: rest =>
    downloadImageWithFallback w j.logoHomeUrl 100 100 (String.mk (j.timeHome.data.take 3)) ::
    downloadImageWithFallback w j.logoAwayUrl 100 100 (String.mk (j.timeAway.data.take 3)) ::
    downloadTeamLogos w rest

/-- createFootballScheduleImage (src/footballGenerate.ts lines 622-708):
fetch assets, build the overlay, composite everything, encode as JPEG. -/
def createFootballScheduleImage (w : World) (d : FootballBody) (width height : ℚ) : Img :=
  let logoEmpresaBuffer := downloadImageWithFallback w d.logoEmpresaUrl 200 200 "LOGO"
  let backgroundBuffer :=
    match d.fundoUrl with
    | some u => downloadImageWithFallback w u width height "FUNDO"
    | none => createFootballGradientBackground w.showNum width height (d.corFundo.getD "#1E3A8A")
  let baseImage := Img.resizedCover backgroundBuffer width height
  let teamLogos := downloadTeamLogos w d.jogos
  let logoSize := min (width * 0.15) 120
  let logoY : ℚ :=
    if d.whatsapp.isSome then 200 + (d.jogos.length : ℚ) * 140 + 60 + 80
    else 200 + (d.jogos.length : ℚ) * 140 + 60 + 20
  let companyLogoComposite :=
    createCompanyLogoComposite logoEmpresaBuffer logoSize width logoY height .bottomCenter
  let scheduleOverlay := createFootballScheduleOverlay w.showNum width height d.data d.jogos d.whatsapp
  let gameStartY : ℚ := 200
  let gameSpacing : ℚ := 180
  let compositeOperations :=
    ((Img.svg width height scheduleOverlay, (none : Option ℚ), (none : Option ℚ)) ::
      companyLogoComposite ::
      perGameOps w teamLogos width gameStartY gameSpacing d.jogos 0)
  .jpeg (.composite baseImage compositeOperations) 95

/-! ## Filesystem, artifact store and the download endpoint
(src/footballGenerate.ts lines 711-730 and 821-856; src/index.ts
lines 66-102 for the error handler). -/

/-- The temp-images directory contents: stored buffer per absolute path. -/
def FSMap : Type := List String → Option Img

/-- The request attributes the handlers read. -/
structure Req : Type where
  xForwardedProto : Option String
  xForwardedHost : Option String
  host : String
  encrypted : Bool
  protocol : String

/-- Download URL built by saveImageAndGetLink (lines 727-729). -/
def downloadUrl (req : Req) (filename : String) : String :=
  let protocol := req.xForwardedProto.getD (if req.encrypted then "https" else "http")
  let host := req.xForwardedHost.getD req.host
  protocol ++ "://" ++ host ++ "/api/download/" ++ filename

/-- Result of one saveImageAndGetLink call: the link returned, the path
written, the filesystem afterwards, and the `setTimeout` deletion delay
scheduled (in milliseconds). -/
structure SaveResult : Type where
  url : String
  path : List String
  fs : FSMap
  delayMs : ℕ

/-- saveImageAndGetLink (src/footballGenerate.ts lines 711-730): write the
buffer under UPLOADS_DIR and schedule deletion after one hour.  The same
function appears verbatim in the movie and football-html route files. -/
def saveImageAndGetLink (cwd : List String) (fs : FSMap) (imageBuffer : Img)
    (filename : String) (req : Req) : SaveResult :=
  let filePath := pathJoin (uploadsDirSegs cwd) filename
  { url := downloadUrl req filename
    path := filePath
    fs := fun p => if p = filePath then some imageBuffer else fs p
    delayMs := 60 * 60 * 1000 }

/-- saveImageAndGetLink of src/imageGenerate.ts (lines 442-461): identical
write, but the deletion delay is 30 minutes and the URL uses
`request.protocol` and the plain host header. -/
def saveImageAndGetLinkIG (cwd : List String) (fs : FSMap) (imageBuffer : Img)
    (filename : String) (req : Req) : SaveResult :=
  let filepath := pathJoin (uploadsDirSegs cwd) filename
  { url := req.protocol ++ "://" ++ req.host ++ "/api/download/" ++ filename
    path := filepath
    fs := fun p => if p = filepath then some imageBuffer else fs p
    delayMs := 30 * 60 * 1000 }

/-- The deletion timer firing: `fs.unlink(filePath)`. -/
def timerFire (fs : FSMap) (p : List String) : FSMap :=
  fun q => if q = p then none else fs q

/-- Reply of the download endpoint. -/
structure DownloadReply : Type where
  status : ℕ
  body : Option Img
  contentType : Option String
  contentDisposition : Option String

/-- The GET /download/:filename handler (src/footballGenerate.ts lines
821-856): `path.join(UPLOADS_DIR, filename)`, `fs.access` (any failure is
caught and answered with 404), then the file is streamed. -/
def downloadHandler (cwd : List String) (fs : FSMap) (filename : String) : DownloadReply :=
  let filePath := pathJoin (uploadsDirSegs cwd) filename
  match fs filePath with
  | some fileStream =>
    { status := 200
      body := some fileStream
      contentType := some "image/jpeg"
      contentDisposition := some ("attachment; filename=\"" ++ filename ++ "\"") }
  | none =>
    { status := 404, body := none, contentType := none, contentDisposition := none }

/-- The error classes distinguished by setErrorHandler (src/index.ts
lines 66-102). -/
inductive AppError : Type where
  | validation : AppError
  | serialization : AppError
  | badStatusCode : AppError
  | other : AppError
deriving DecidableEq

/-- Status codes chosen by setErrorHandler: 400 for zod schema validation
errors, 500 otherwise. -/
def setErrorHandlerStatus : AppError → ℕ
  | .validation => 400
  | .serialization => 500
  | .badStatusCode => 500
  | .other => 500

/-! ## Query flags and schema validation -/

/-- Raw query-string flags of the generation endpoints. -/
structure QueryFlags : Type where
  base64 : Option String
  file : Option String
deriving DecidableEq

/-- The zod transform `(val) => val === "true"` on an optional string
(src/footballGenerate.ts lines 53-62). -/
def parseQFlag (v : Option String) : Bool := v == some "true"

/-- footballScheduleSchema (src/footballGenerate.ts lines 25-50): URL
fields must satisfy the URL check (third-party, abstracted as `isUrl`)
and at most 5 games are allowed. -/
def validateFootballBody (isUrl : String → Bool) (b : FootballBody) : Bool :=
  isUrl b.logoEmpresaUrl &&
  decide (b.jogos.length ≤ 5) &&
  b.jogos.all (fun j =>
    isUrl j.logoHomeUrl && isUrl j.logoAwayUrl &&
    (match j.canais with
     | some cs => cs.all (fun c => isUrl c.logoUrl)
     | none => true)) &&
  (match b.fundoUrl with
   | some u => isUrl u
   | none => true)

/-- URLs the football pipeline fetches for a body, in request order. -/
def footballFetchUrls (d : FootballBody) : List String :=
  d.logoEmpresaUrl ::
  ((match d.fundoUrl with
    | some u => [u]
    | none => []) ++
   d.jogos.flatMap (fun j =>
     [j.logoHomeUrl, j.logoAwayUrl] ++
     (match j.canais with
      | some cs => if cs.length > 0 then (cs.take 3).map (fun c => c.logoUrl) else []
      | none => [])))

/-- Observable outcome of one generation request: HTTP status, the mode
chosen, the render calls made (target width and height), the asset URLs
fetched, the buffers delivered inline, the files written, the filesystem
afterwards, the deletion delays scheduled, and the advertised expiry. -/
structure GenResult : Type where
  status : ℕ
  usedBase64 : Bool
  renders : List (ℚ × ℚ)
  fetches : List String
  delivered : List Img
  saved : List (List String × Img)
  fs : FSMap
  delays : List ℕ
  expiresIn : Option String

/-- The POST /generate-football-schedule handler (src/footballGenerate.ts
lines 732-818) together with the framework behaviour that a schema
validation failure answers 400 through setErrorHandler without entering
the handler body.  When the body validates, the three resolutions are
rendered from the same parsed body and delivered inline when
`base64=true`, otherwise written under random session names with an
"1 hour" expiry. -/
def footballScheduleRoute (isUrl : String → Bool) (w : World) (cwd : List String) (fs : FSMap)
    (req : Req) (sessionId : String) (body : FootballBody) (q : QueryFlags) : GenResult :=
  if validateFootballBody isUrl body then
    let useBase64 := parseQFlag q.base64
    let landscapeImage := createFootballScheduleImage w body 1920 1080
    let portraitImage := createFootballScheduleImage w body 1080 1920
    let squareImage := createFootballScheduleImage w body 1080 1080
    if useBase64 then
      { status := 200
        usedBase64 := useBase64
        renders := [(1920, 1080), (1080, 1920), (1080, 1080)]
        fetches := footballFetchUrls body
        delivered := [landscapeImage, portraitImage, squareImage]
        saved := []
        fs := fs
        delays := []
        expiresIn := none }
    else
      let r1 := saveImageAndGetLink cwd fs landscapeImage ("football_" ++ sessionId ++ "_landscape.jpg") req
      let r2 := saveImageAndGetLink cwd r1.fs portraitImage ("football_" ++ sessionId ++ "_portrait.jpg") req
      let r3 := saveImageAndGetLink cwd r2.fs squareImage ("football_" ++ sessionId ++ "_square.jpg") req
      { status := 200
        usedBase64 := useBase64
        renders := [(1920, 1080), (1080, 1920), (1080, 1080)]
        fetches := footballFetchUrls body
        delivered := []
        saved := [(r1.path, landscapeImage), (r2.path, portraitImage), (r3.path, squareImage)]
        fs := r3.fs
        delays := [r1.delayMs, r2.delayMs, r3.delayMs]
        expiresIn := some "1 hour" }
  else
    { status := setErrorHandlerStatus .validation
      usedBase64 := parseQFlag q.base64
      renders := []
      fetches := []
      delivered := []
      saved := []
      fs := fs
      delays := []
      expiresIn := none }

/-! ## Movie route (the unnamed movie route source file, registered as
`movieRoutes` in src/index.ts).  Schema lines 25-33, helpers lines
94-305, pipeline lines 308-403, handler lines 427-513. -/

/-- imageGenerationSchema of the movie route (lines 25-33). -/
structure MovieBody : Type where
  logoUrl : String
  contato : Option String
  whatsapp : Option String
  capaFilmeUrl : String
  fundoUrl : Option String
  titulo : String
  descricao : String
deriving DecidableEq

/-- wrapText (movie route lines 179-202): greedy word wrap; the length
test concatenates the line and the word without the separating space,
exactly as the source does. -/
def wrapTextAux (maxCharsPerLine : ℕ) : List String → String → List String
  | [], currentLine => if currentLine = "" then [] else [currentLine]
  | word :: ws, currentLine =>
    if (currentLine ++ word).length ≤ maxCharsPerLine then
      wrapTextAux maxCharsPerLine ws
        (currentLine ++ (if currentLine = "" then "" else " ") ++ word)
    else if currentLine ≠ "" then
      currentLine :: wrapTextAux maxCharsPerLine ws word
    else
      word :: wrapTextAux maxCharsPerLine ws ""

/-- wrapText entry point: split on single spaces and accumulate lines. -/
def wrapText (text : String) (maxCharsPerLine : ℕ) : List String :=
  wrapTextAux maxCharsPerLine (text.splitOn " ") ""

/-- `Math.floor` of a rational, clamped to ℕ as the source only applies
it to nonnegative layout quantities. -/
def jsFloorNat (x : ℚ) : ℕ := (⌊x⌋).toNat

/-- createAdvancedGradientBackground (movie route lines 124-150). -/
def createAdvancedGradientBackground (sn : ℚ → String) (width height : ℚ) (color : String) : Img :=
  let baseColor := removeFirst '#' color.data
  let r := hexByte (baseColor.take 2)
  let g := hexByte ((baseColor.drop 2).take 2)
  let b := hexByte ((baseColor.drop 4).take 2)
  .svg width height
    ("\n\t\t<svg width=\"" ++ sn width ++ "\" height=\"" ++ sn height ++
      "\" xmlns=\"http://www.w3.org/2000/svg\">\n\t\t\t<defs>\n\t\t\t\t<radialGradient id=\"movieGrad\" cx=\"30%\" cy=\"30%\" r=\"70%\">\n\t\t\t\t\t<stop offset=\"0%\" style=\"stop-color:rgb(" ++
      toString (min 255 (r + 60)) ++ "," ++ toString (min 255 (g + 60)) ++ "," ++
      toString (min 255 (b + 60)) ++
      ");stop-opacity:0.9\" />\n\t\t\t\t\t<stop offset=\"40%\" style=\"stop-color:rgb(" ++
      toString r ++ "," ++ toString g ++ "," ++ toString b ++
      ");stop-opacity:1\" />\n\t\t\t\t\t<stop offset=\"100%\" style=\"stop-color:rgb(" ++
      toString (max 0 (r - 40)) ++ "," ++ toString (max 0 (g - 40)) ++ "," ++
      toString (max 0 (b - 40)) ++
      ");stop-opacity:1\" />\n\t\t\t\t</radialGradient>\n\t\t\t</defs>\n\t\t\t<rect width=\"100%\" height=\"100%\" fill=\"url(#movieGrad)\" />\n\t\t</svg>\n\t")

/-- createCardBackground (movie route lines 153-166). -/
def createCardBackground (sn : ℚ → String) (width height : ℚ) : Img :=
  .svg width height
    ("\n\t\t<svg width=\"" ++ sn width ++ "\" height=\"" ++ sn height ++
      "\" xmlns=\"http://www.w3.org/2000/svg\">\n\t\t\t<defs>\n\t\t\t\t<filter id=\"cardShadow\" x=\"-10%\" y=\"-10%\" width=\"120%\" height=\"120%\">\n\t\t\t\t\t<feDropShadow dx=\"8\" dy=\"12\" stdDeviation=\"15\" flood-color=\"rgba(0,0,0,0.3)\"/>\n\t\t\t\t</filter>\n\t\t\t</defs>\n\t\t\t<rect x=\"40\" y=\"40\" width=\"" ++
      sn (width - 80) ++ "\" height=\"" ++ sn (height - 80) ++
      "\" rx=\"20\" fill=\"white\" filter=\"url(#cardShadow)\"/>\n\t\t</svg>\n\t")

/-- The opening of the movie text overlay with its style block
(createAdvancedTextOverlay, movie route lines 225-253). -/
def movieOverlayHeader (sn : ℚ → String) (totalWidth totalHeight : ℚ) : String :=
  "\n\t\t<svg width=\"" ++
  sn totalWidth ++
  "\" height=\"" ++
  sn totalHeight ++
  "\" xmlns=\"http://www.w3.org/2000/svg\">\n\t\t\t<defs>\n\t\t\t\t<style>\n\t\t\t\t\t.title \x7b \n\t\t\t\t\t\tfont-family: \x27Arial Black\x27, Arial, sans-serif; \n\t\t\t\t\t\tfont-weight: 900; \n\t\t\t\t\t\tfill: #1a1a2e; \n\t\t\t\t\t\ttext-shadow: 1px 1px 2px rgba(0,0,0,0.1);\n\t\t\t\t\t\x7d\n\t\t\t\t\t.description \x7b \n\t\t\t\t\t\tfont-family: Arial, sans-serif; \n\t\t\t\t\t\tfill: #333; \n\t\t\t\t\t\tfont-weight: 400;\n\t\t\t\t\t\tline-height: 1.4;\n\t\t\t\t\t\x7d\n\t\t\t\t\t.meta \x7b \n\t\t\t\t\t\tfont-family: Arial, sans-serif; \n\t\t\t\t\t\tfill: #666; \n\t\t\t\t\t\tfont-weight: 600;\n\t\t\t\t\t\x7d\n\t\t\t\t\t.watermark \x7b \n\t\t\t\t\t\tfont-family: Arial, sans-serif; \n\t\t\t\t\t\tfill: rgba(0,0,0,0.4); \n\t\t\t\t\t\tfont-weight: 500;\n\t\t\t\t\t\x7d\n\t\t\t\t</style>\n\t\t\t</defs>\n\t"

/-- The title-lines loop of createAdvancedTextOverlay (lines 258-263):
emits one `<text>` per wrapped line, escaped, advancing `currentY` by
`titleFontSize + 8`; returns the markup and the final `currentY`. -/
def titleLinesSvg (sn : ℚ → String) (contentX titleFontSize : ℚ) :
    List String → ℚ → String × ℚ
  | [], currentY => ("", currentY)
  | line :: rest, currentY =>
    let piece :=
      "<text x=\"" ++ sn (contentX + 20) ++ "\" y=\"" ++ sn currentY ++ "\" font-size=\"" ++
      sn titleFontSize ++ "\" class=\"title\">" ++ escapeXml line ++ "</text>"
    let next := titleLinesSvg sn contentX titleFontSize rest (currentY + titleFontSize + 8)
    (piece ++ next.1, next.2)

/-- The description-lines loop of createAdvancedTextOverlay
(lines 268-273), advancing `currentY` by `descFontSize + 6`. -/
def descLinesSvg (sn : ℚ → String) (contentX descFontSize : ℚ) :
    List String → ℚ → String × ℚ
  | [], currentY => ("", currentY)
  | line :: rest, currentY =>
    let piece :=
      "<text x=\"" ++ sn (contentX + 20) ++ "\" y=\"" ++ sn currentY ++ "\" font-size=\"" ++
      sn descFontSize ++ "\" class=\"description\">" ++ escapeXml line ++ "</text>"
    let next := descLinesSvg sn contentX descFontSize rest (currentY + descFontSize + 6)
    (piece ++ next.1, next.2)

/-- createAdvancedTextOverlay (movie route lines 205-305): wrapped and
escaped title and description, optional contact lines, watermark. -/
def createAdvancedTextOverlay (sn : ℚ → String) (totalWidth totalHeight : ℚ)
    (contentX contentY contentWidth : ℚ) (titulo descricao : String)
    (contato whatsapp : Option String)
    (titleFontSize descFontSize metaFontSize : ℚ) : String :=
  let maxTitleChars := jsFloorNat (contentWidth / (titleFontSize * 0.6))
  let maxDescChars := jsFloorNat (contentWidth / (descFontSize * 0.6))
  let titleLines := wrapText titulo maxTitleChars
  let descLines := wrapText descricao maxDescChars
  let header := movieOverlayHeader sn totalWidth totalHeight
  let afterTitle := titleLinesSvg sn contentX titleFontSize titleLines (contentY + 40)
  let afterDesc := descLinesSvg sn contentX descFontSize descLines (afterTitle.2 + 20)
  let bottomY := contentY + contentWidth * 0.7
  let contatoSvg :=
    match contato with
    | some ct =>
      "<text x=\"" ++ sn (contentX + 20) ++ "\" y=\"" ++ sn bottomY ++ "\" font-size=\"" ++
      sn metaFontSize ++ "\" class=\"meta\">ðŸ“§ " ++ escapeXml ct ++ "</text>"
    | none => ""
  let whatsappSvg :=
    match whatsapp with
    | some wa =>
      let whatsappY := if contato.isSome then bottomY + metaFontSize + 8 else bottomY
      "<text x=\"" ++ sn (contentX + 20) ++ "\" y=\"" ++ sn whatsappY ++ "\" font-size=\"" ++
      sn metaFontSize ++ "\" class=\"meta\">ðŸ“± WhatsApp: " ++ escapeXml wa ++ "</text>"
    | none => ""
  let watermarkSvg :=
    if WATERMARK_ENABLED then
      let watermarkFontSize := min (totalWidth * 0.015) 16
      "\n\t\t\t<text x=\"" ++ sn (totalWidth - 20) ++ "\" y=\"" ++ sn (totalHeight - 20) ++
      "\" font-size=\"" ++ sn watermarkFontSize ++
      "\" class=\"watermark\" text-anchor=\"end\">\n\t\t\t\t" ++ escapeXml WATERMARK_TEXT ++
      "\n\t\t\t</text>\n\t\t"
    else ""
  header ++ afterTitle.1 ++ afterDesc.1 ++ contatoSvg ++ whatsappSvg ++ watermarkSvg ++ "</svg>"

/-- createPromotionalImage (movie route lines 308-403). -/
def createPromotionalImage (w : World) (d : MovieBody) (width height : ℚ) : Img :=
  let logoBuffer := downloadImageWithFallback w d.logoUrl 150 150 "LOGO"
  let capaBuffer := downloadImageWithFallback w d.capaFilmeUrl 300 450 "MOVIE"
  let backgroundBuffer :=
    match d.fundoUrl with
    | some u => downloadImageWithFallback w u width height "BACKGROUND"
    | none => createAdvancedGradientBackground w.showNum width height "#1a1a2e"
  let cardBackground := createCardBackground w.showNum width height
  let cardMargin : ℚ := 40
  let cardWidth := width - cardMargin * 2
  let posterWidth := min (cardWidth * 0.35) 300
  let posterHeight := posterWidth * 1.5
  let contentX := cardMargin + posterWidth + 30
  let contentY := cardMargin
  let contentWidth := cardWidth - posterWidth - 50
  let logoSize := min (contentWidth * 0.25) 100
  let titleFontSize := min (width * 0.025) 32
  let descFontSize := min (width * 0.015) 18
  let metaFontSize := min (width * 0.012) 14
  let logoResized := Img.png (.resizedInside logoBuffer (jsRound logoSize) (jsRound logoSize))
  let capaResized := Img.png (.resizedCover capaBuffer (jsRound posterWidth) (jsRound posterHeight))
  let textOverlay := createAdvancedTextOverlay w.showNum width height contentX contentY
    contentWidth d.titulo d.descricao d.contato d.whatsapp titleFontSize descFontSize metaFontSize
  let baseImage := Img.resizedCover backgroundBuffer width height
  .jpeg
    (.composite baseImage
      [(cardBackground, none, none),
       (capaResized, some (cardMargin + 20), some (cardMargin + 20)),
       (Img.svg width height textOverlay, none, none),
       (logoResized, some (jsRound (contentX + contentWidth - logoSize - 20)), some (cardMargin + 20))])
    95

/-- imageGenerationSchema validation (movie route lines 25-33): the three
URL fields must be URLs; the text fields are unconstrained. -/
def validateMovieBody (isUrl : String → Bool) (b : MovieBody) : Bool :=
  isUrl b.logoUrl && isUrl b.capaFilmeUrl &&
  (match b.fundoUrl with
   | some u => isUrl u
   | none => true)

/-- URLs the movie pipeline fetches for a body. -/
def movieFetchUrls (d : MovieBody) : List String :=
  [d.logoUrl, d.capaFilmeUrl] ++
  (match d.fundoUrl with
   | some u => [u]
   | none => [])

/-- The POST /generate-images handler of the movie route (lines 427-513),
with the same framework validation behaviour as the football route. -/
def movieGenerateRoute (isUrl : String → Bool) (w : World) (cwd : List String) (fs : FSMap)
    (req : Req) (sessionId : String) (body : MovieBody) (q : QueryFlags) : GenResult :=
  if validateMovieBody isUrl body then
    let useBase64 := parseQFlag q.base64
    let landscapeImage := createPromotionalImage w body 1920 1080
    let portraitImage := createPromotionalImage w body 1080 1920
    let squareImage := createPromotionalImage w body 1080 1080
    if useBase64 then
      { status := 200
        usedBase64 := useBase64
        renders := [(1920, 1080), (1080, 1920), (1080, 1080)]
        fetches := movieFetchUrls body
        delivered := [landscapeImage, portraitImage, squareImage]
        saved := []
        fs := fs
        delays := []
        expiresIn := none }
    else
      let r1 := saveImageAndGetLink cwd fs landscapeImage ("movie_" ++ sessionId ++ "_landscape.jpg") req
      let r2 := saveImageAndGetLink cwd r1.fs portraitImage ("movie_" ++ sessionId ++ "_portrait.jpg") req
      let r3 := saveImageAndGetLink cwd r2.fs squareImage ("movie_" ++ sessionId ++ "_square.jpg") req
      { status := 200
        usedBase64 := useBase64
        renders := [(1920, 1080), (1080, 1920), (1080, 1080)]
        fetches := movieFetchUrls body
        delivered := []
        saved := [(r1.path, landscapeImage), (r2.path, portraitImage), (r3.path, squareImage)]
        fs := r3.fs
        delays := [r1.delayMs, r2.delayMs, r3.delayMs]
        expiresIn := some "1 hour" }
  else
    { status := setErrorHandlerStatus .validation
      usedBase64 := parseQFlag q.base64
      renders := []
      fetches := []
      delivered := []
      saved := []
      fs := fs
      delays := []
      expiresIn := none }
/-- generateCSS (football-html route lines 51-401): the fixed style
sheet with the background interpolated from the request. -/
def generateCSS (d : FootballBody) : String :=
  let backgroundImage :=
    match d.fundoUrl with
    | some u => "url(\x27" ++ u ++ "\x27)"
    | none => "linear-gradient(135deg, " ++ d.corFundo.getD "#1E3A8A" ++ " 0%, #0F172A 100%)"
  "\n\t\t* \x7b\n\t\t\tmargin: 0;\n\t\t\tpadding: 0;\n\t\t\tbox-sizing: border-box;\n\t\t\x7d\n\n\t\tbody \x7b\n\t\t\twidth: 1080px;\n\t\t\theight: 1920px;\n\t\t\tbackground: " ++
  backgroundImage ++
  ";\n\t\t\tbackground-size: cover;\n\t\t\tbackground-position: center;\n\t\t\tfont-family: \x27Arial Black\x27, Arial, sans-serif;\n\t\t\tcolor: white;\n\t\t\tdisplay: flex;\n\t\t\tflex-direction: column;\n\t\t\tposition: relative;\n\t\t\toverflow: hidden;\n\t\t\x7d\n\n\t\tbody::before \x7b\n\t\t\tcontent: \x27\x27;\n\t\t\tposition: absolute;\n\t\t\ttop: 0;\n\t\t\tleft: 0;\n\t\t\tright: 0;\n\t\t\tbottom: 0;\n\t\t\tbackground: \n\t\t\t\tradial-gradient(circle at 20% 20%, rgba(0,255,65,0.1) 0%, transparent 50%),\n\t\t\t\tradial-gradient(circle at 80% 80%, rgba(255,255,0,0.05) 0%, transparent 50%),\n\t\t\t\tlinear-gradient(45deg, transparent 49%, rgba(0,255,65,0.02) 50%, transparent 51%);\n\t\t\tpointer-events: none;\n\t\t\tz-index: 1;\n\t\t\x7d\n\n\t\t.container \x7b\n\t\t\tflex: 1;\n\t\t\tdisplay: grid;\n\t\t\tgrid-template-rows: auto 1fr auto;\n\t\t\tpadding: 40px;\n\t\t\tgap: 30px;\n\t\t\tmin-height: 100vh;\n\t\t\tposition: relative;\n\t\t\tz-index: 2;\n\t\t\x7d\n\n\t\t.header \x7b\n\t\t\ttext-align: center;\n\t\t\tmargin-bottom: 20px;\n\t\t\x7d\n\n\t\t.title \x7b\n\t\t\tfont-size: 80px;\n\t\t\tfont-weight: 900;\n\t\t\tcolor: #00ff41;\n\t\t\ttext-shadow: 3px 3px 6px rgba(0,0,0,0.8);\n\t\t\tletter-spacing: 3px;\n\t\t\tmargin-bottom: 10px;\n\t\t\x7d\n\n\t\t.date \x7b\n\t\t\tfont-size: 60px;\n\t\t\tfont-weight: 900;\n\t\t\tcolor: white;\n\t\t\ttext-shadow: 2px 2px 4px rgba(0,0,0,0.8);\n\t\t\tletter-spacing: 2px;\n\t\t\x7d\n\n\t\t.games \x7b\n\t\t\tdisplay: grid;\n\t\t\tgap: 40px;\n\t\t\tflex: 1;\n\t\t\tgrid-template-columns: 1fr;\n\t\t\talign-content: start;\n\t\t\tposition: relative;\n\t\t\tz-index: 1;\n\t\t\x7d\n\n\t\t.game-card \x7b\n\t\t\tbackground: linear-gradient(90deg, rgba(0,0,0,0.6) 0%, rgba(0,0,0,0.8) 50%, rgba(0,0,0,0.6) 100%);\n\t\t\tborder: 2px solid rgba(0,255,65,0.4);\n\t\t\tborder-radius: 25px;\n\t\t\tpadding: 20px;\n\t\t\tdisplay: grid;\n\t\t\tgrid-template-rows: auto auto auto;\n\t\t\tgap: 15px;\n\t\t\tbox-shadow: 0 6px 20px rgba(0,0,0,0.5);\n\t\t\tbackdrop-filter: blur(10px);\n\t\t\tposition: relative;\n\t\t\toverflow: hidden;\n\t\t\x7d\n\n\t\t.game-card::before \x7b\n\t\t\tcontent: \x27\x27;\n\t\t\tposition: absolute;\n\t\t\ttop: 0;\n\t\t\tleft: 0;\n\t\t\tright: 0;\n\t\t\theight: 4px;\n\t\t\tbackground: linear-gradient(90deg, #00ff41 0%, #ffff00 50%, #00ff41 100%);\n\t\t\x7d\n\n\t\t.time-display \x7b\n\t\t\tbackground: linear-gradient(45deg, #ffff00, #ffd700);\n\t\t\tcolor: #000;\n\t\t\tfont-weight: 900;\n\t\t\tfont-size: 38px;\n\t\t\ttext-align: center;\n\t\t\tpadding: 8px 20px;\n\t\t\tborder-radius: 18px;\n\t\t\tborder: 2px solid rgba(0,0,0,0.3);\n\t\t\ttext-shadow: 1px 1px 2px rgba(255,255,255,0.3);\n\t\t\talign-self: center;\n\t\t\tmin-width: 120px;\n\t\t\x7d\n\n\t\t.teams \x7b\n\t\t\tdisplay: grid;\n\t\t\tgrid-template-columns: 1fr auto 1fr;\n\t\t\talign-items: center;\n\t\t\tgap: 20px;\n\t\t\tpadding: 0 20px;\n\t\t\x7d\n\n\t\t.team \x7b\n\t\t\tdisplay: flex;\n\t\t\talign-items: center;\n\t\t\tgap: 15px;\n\t\t\tmin-width: 0; /* Allow text truncation */\n\t\t\x7d\n\n\t\t.team.home \x7b\n\t\t\tflex-direction: row;\n\t\t\tjustify-self: start;\n\t\t\x7d\n\n\t\t.team.away \x7b\n\t\t\tflex-direction: row-reverse;\n\t\t\tjustify-self: end;\n\t\t\x7d\n\n\t\t.vs \x7b\n\t\t\tjustify-self: center;\n\t\t\x7d\n\n\t\t.team-logo \x7b\n\t\t\twidth: 70px;\n\t\t\theight: 70px;\n\t\t\tobject-fit: contain;\n\t\t\tborder-radius: 8px;\n\t\t\x7d\n\n\t\t.team-name \x7b\n\t\t\tfont-size: 45px;\n\t\t\tfont-weight: 900;\n\t\t\ttext-shadow: 2px 2px 4px rgba(0,0,0,0.8);\n\t\t\tletter-spacing: 1.5px;\n\t\t\twhite-space: nowrap;\n\t\t\toverflow: hidden;\n\t\t\ttext-overflow: ellipsis;\n\t\t\tmax-width: 300px;\n\t\t\x7d\n\n\t\t.vs \x7b\n\t\t\tfont-size: 50px;\n\t\t\tfont-weight: 900;\n\t\t\tcolor: #00ff41;\n\t\t\ttext-shadow: 2px 2px 4px rgba(0,0,0,0.8);\n\t\t\tpadding: 10px;\n\t\t\tbackground: rgba(0,255,65,0.1);\n\t\t\tborder-radius: 50%;\n\t\t\tmin-width: 70px;\n\t\t\ttext-align: center;\n\t\t\x7d\n\n\t\t.channels \x7b\n\t\t\tdisplay: flex;\n\t\t\talign-items: center;\n\t\t\tjustify-content: center;\n\t\t\tflex-wrap: wrap;\n\t\t\tgap: 20px;\n\t\t\tbackground: rgba(0,0,0,0.9);\n\t\t\tborder: 1px solid rgba(255,255,255,0.3);\n\t\t\tborder-radius: 14px;\n\t\t\tpadding: 12px 20px;\n\t\t\tmargin-top: 10px;\n\t\t\tbackdrop-filter: blur(5px);\n\t\t\x7d\n\n\t\t.channel-item \x7b\n\t\t\tdisplay: flex;\n\t\t\talign-items: center;\n\t\t\tgap: 8px;\n\t\t\tbackground: rgba(255,255,255,0.1);\n\t\t\tpadding: 4px 8px;\n\t\t\tborder-radius: 8px;\n\t\t\ttransition: transform 0.2s ease;\n\t\t\x7d\n\n\t\t.channel-item:hover \x7b\n\t\t\ttransform: scale(1.05);\n\t\t\x7d\n\n\t\t.channel-logo \x7b\n\t\t\twidth: 20px;\n\t\t\theight: 20px;\n\t\t\tobject-fit: contain;\n\t\t\x7d\n\n\t\t.channel-name \x7b\n\t\t\tfont-size: 24px;\n\t\t\tfont-weight: 700;\n\t\t\ttext-shadow: 1px 1px 2px rgba(0,0,0,0.8);\n\t\t\x7d\n\n\t\t.contact \x7b\n\t\t\tbackground: linear-gradient(45deg, #25d366, #128c7e);\n\t\t\tborder: 3px solid rgba(255,255,255,0.4);\n\t\t\tborder-radius: 40px;\n\t\t\tpadding: 25px;\n\t\t\ttext-align: center;\n\t\t\tfont-size: 50px;\n\t\t\tfont-weight: 900;\n\t\t\ttext-shadow: 2px 2px 4px rgba(0,0,0,0.8);\n\t\t\tletter-spacing: 1px;\n\t\t\tbox-shadow: 0 8px 25px rgba(37, 211, 102, 0.3);\n\t\t\tdisplay: flex;\n\t\t\talign-items: center;\n\t\t\tjustify-content: center;\n\t\t\tgap: 15px;\n\t\t\x7d\n\n\t\t.company-logo \x7b\n\t\t\twidth: 100px;\n\t\t\theight: 100px;\n\t\t\tobject-fit: cover;\n\t\t\tborder-radius: 50%;\n\t\t\tborder: 3px solid rgba(0,255,65,0.6);\n\t\t\tbox-shadow: \n\t\t\t\t0 4px 15px rgba(0,255,65,0.3),\n\t\t\t\t0 0 30px rgba(0,255,65,0.2),\n\t\t\t\tinset 0 0 20px rgba(0,255,65,0.1);\n\t\t\tposition: absolute;\n\t\t\ttop: 30px;\n\t\t\tright: 30px;\n\t\t\tz-index: 10;\n\t\t\tanimation: logoGlow 3s ease-in-out infinite alternate;\n\t\t\x7d\n\n\t\t@keyframes logoGlow \x7b\n\t\t\t0% \x7b\n\t\t\t\tbox-shadow: \n\t\t\t\t\t0 4px 15px rgba(0,255,65,0.3),\n\t\t\t\t\t0 0 30px rgba(0,255,65,0.2),\n\t\t\t\t\tinset 0 0 20px rgba(0,255,65,0.1);\n\t\t\t\x7d\n\t\t\t100% \x7b\n\t\t\t\tbox-shadow: \n\t\t\t\t\t0 6px 20px rgba(0,255,65,0.5),\n\t\t\t\t\t0 0 40px rgba(0,255,65,0.4),\n\t\t\t\t\tinset 0 0 25px rgba(0,255,65,0.2);\n\t\t\t\x7d\n\t\t\x7d\n\n\t\t.watermark \x7b\n\t\t\tposition: absolute;\n\t\t\tfont-size: 18px;\n\t\t\tcolor: rgba(255,255,255,0.4);\n\t\t\tfont-weight: 500;\n\t\t\tpointer-events: none;\n\t\t\tuser-select: none;\n\t\t\x7d\n\n\t\t.watermark.bottom-center \x7b\n\t\t\tbottom: 20px;\n\t\t\tleft: 50%;\n\t\t\ttransform: translateX(-50%);\n\t\t\x7d\n\n\t\t.watermark.top-left \x7b\n\t\t\ttop: 150px;\n\t\t\tleft: 30px;\n\t\t\ttransform: rotate(-90deg);\n\t\t\ttransform-origin: left bottom;\n\t\t\x7d\n\n\t\t.watermark.middle-left \x7b\n\t\t\ttop: 50%;\n\t\t\tleft: 20px;\n\t\t\ttransform: translateY(-50%) rotate(-90deg);\n\t\t\ttransform-origin: center;\n\t\t\x7d\n\n\t\t.watermark.middle-right \x7b\n\t\t\ttop: 50%;\n\t\t\tright: 20px;\n\t\t\ttransform: translateY(-50%) rotate(90deg);\n\t\t\ttransform-origin: center;\n\t\t\x7d\n\n\t\t.watermark.diagonal-1 \x7b\n\t\t\ttop: 25%;\n\t\t\tleft: 15%;\n\t\t\ttransform: rotate(-45deg);\n\t\t\topacity: 0.2;\n\t\t\x7d\n\n\t\t.watermark.diagonal-2 \x7b\n\t\t\ttop: 75%;\n\t\t\tright: 15%;\n\t\t\ttransform: rotate(45deg);\n\t\t\topacity: 0.2;\n\t\t\x7d\n\n\t\t.watermark.behind-games \x7b\n\t\t\tposition: absolute;\n\t\t\tfont-size: 120px;\n\t\t\tcolor: rgba(255,255,255,0.03);\n\t\t\tfont-weight: 900;\n\t\t\tz-index: 0;\n\t\t\tpointer-events: none;\n\t\t\tuser-select: none;\n\t\t\ttop: 50%;\n\t\t\tleft: 50%;\n\t\t\ttransform: translate(-50%, -50%) rotate(-15deg);\n\t\t\tletter-spacing: 20px;\n\t\t\x7d\n\n\t\t.watermark.between-games \x7b\n\t\t\tposition: relative;\n\t\t\ttext-align: center;\n\t\t\tfont-size: 14px;\n\t\t\tcolor: rgba(255,255,255,0.3);\n\t\t\tfont-weight: 400;\n\t\t\tmargin: 10px 0;\n\t\t\tletter-spacing: 2px;\n\t\t\x7d\n\n\t\t.more-channels \x7b\n\t\t\tfont-size: 20px;\n\t\t\tcolor: #00ff41;\n\t\t\tfont-weight: 700;\n\t\t\x7d\n\t"
/-- One channel item of generateHTML (football-html route lines
436-441): logo URL and channel name interpolated raw. -/
def channelItemHTML (canal : Canal) : String :=
  "\n\t\t\t\t\t\t<div class=\"channel-item\" role=\"text\">\n\t\t\t\t\t\t\t<img src=\"" ++
  canal.logoUrl ++
  "\" alt=\"Logo " ++
  canal.channelName ++
  "\" class=\"channel-logo\" />\n\t\t\t\t\t\t\t<span class=\"channel-name\">" ++
  canal.channelName ++
  "</span>\n\t\t\t\t\t\t</div>\n\t\t\t\t\t"

/-- The `.slice(0, 3).map(...).join("")` over channels. -/
def channelItemsHTML (canais : List Canal) : String :=
  String.join (((canais.take 3).map channelItemHTML))

/-- The channels block of one game card (lines 429-448): emitted only
when the game has at least one channel; shows up to three items and a
raw "+N mais" overflow marker. -/
def channelsBlockHTML (canais : List Canal) : String :=
  let more :=
    if canais.length > 3 then
      "<span class=\"more-channels\">+" ++ toString (canais.length - 3) ++ " mais</span>"
    else ""
  "\n\t\t\t\t<div class=\"channels\" role=\"group\" aria-label=\"Canais de transmissão\">\n\t\t\t\t\t" ++ channelItemsHTML canais ++
  "\n\t\t\t\t\t" ++ more ++
  "\n\t\t\t\t</div>\n\t\t\t"
/-- One game card of generateHTML (lines 409-455): time, logos, team
names (upper-cased) and channels, all interpolated without escaping;
a small watermark is placed between consecutive cards. -/
def gameCardHTML (jogo : Jogo) (index : ℕ) (total : ℕ) : String :=
  let canaisBlock :=
    match jogo.canais with
    | some cs => if cs.length > 0 then channelsBlockHTML cs else ""
    | none => ""
  let betweenWatermark :=
    if WATERMARK_ENABLED && decide (index < total - 1) then
      "<div class=\"watermark between-games\" aria-hidden=\"true\">• " ++ WATERMARK_TEXT ++ " •</div>"
    else ""
  "\n\t\t<article class=\"game-card\" aria-label=\"Jogo " ++
  toString (index + 1) ++
  "\">\n\t\t\t<div class=\"time-display\" role=\"text\" aria-label=\"Horário do jogo\">\n\t\t\t\t" ++
  jogo.horario ++
  "\n\t\t\t</div>\n\t\t\t\n\t\t\t<div class=\"teams\" role=\"group\" aria-label=\"Times do jogo\">\n\t\t\t\t<div class=\"team home\" role=\"group\" aria-label=\"Time da casa\">\n\t\t\t\t\t<img src=\"" ++
  jogo.logoHomeUrl ++
  "\" alt=\"Logo " ++
  jogo.timeHome ++
  "\" class=\"team-logo\" />\n\t\t\t\t\t<h3 class=\"team-name\">" ++
  jsToUpper jogo.timeHome ++
  "</h3>\n\t\t\t\t</div>\n\t\t\t\t\n\t\t\t\t<div class=\"vs\" role=\"text\" aria-label=\"versus\">×</div>\n\t\t\t\t\n\t\t\t\t<div class=\"team away\" role=\"group\" aria-label=\"Time visitante\">\n\t\t\t\t\t<h3 class=\"team-name\">" ++
  jsToUpper jogo.timeAway ++
  "</h3>\n\t\t\t\t\t<img src=\"" ++
  jogo.logoAwayUrl ++
  "\" alt=\"Logo " ++
  jogo.timeAway ++
  "\" class=\"team-logo\" />\n\t\t\t\t</div>\n\t\t\t</div>\n\t\t\t\n\t\t\t" ++
  canaisBlock ++
  "\n\t\t</article>\n\t\t" ++
  betweenWatermark ++
  "\n\t"
/-- The `jogos.map(...).join("")` of generateHTML (lines 407-457). -/
def gamesHTMLAux : List Jogo → ℕ → ℕ → String
  | [], _, _ => ""
  | j :: rest, index, total => gameCardHTML j index total ++ gamesHTMLAux rest (index + 1) total

/-- generateHTML (football-html route lines 404-512): the full page.
Every user text field (date, times, team names, channel names,
WhatsApp contact) is interpolated raw, without escapeXml. -/
def generateHTML (d : FootballBody) : String :=
  let css := generateCSS d
  let gamesHTML := gamesHTMLAux d.jogos 0 d.jogos.length
  let behindWatermark :=
    if WATERMARK_ENABLED then
      "<div class=\"watermark behind-games\" aria-hidden=\"true\">" ++ WATERMARK_TEXT ++ "</div>"
    else ""
  let whatsappBlock :=
    match d.whatsapp with
    | some wa =>
      "\n\t\t\t\t\t<aside class=\"contact\" aria-label=\"Contato WhatsApp\">\n\t\t\t\t\t\t<span>📱</span>\n\t\t\t\t\t\t<span>" ++
      wa ++
      "</span>\n\t\t\t\t\t</aside>\n\t\t\t\t"
    | none => ""
  let cornerWatermarks :=
    if WATERMARK_ENABLED then
      "\n\t\t\t\t<!-- Multiple watermarks positioned strategically -->\n\t\t\t\t<div class=\"watermark bottom-center\" aria-hidden=\"true\">" ++
      WATERMARK_TEXT ++
      "</div>\n\t\t\t\t<div class=\"watermark top-left\" aria-hidden=\"true\">" ++
      WATERMARK_TEXT ++
      "</div>\n\t\t\t\t<div class=\"watermark middle-left\" aria-hidden=\"true\">" ++
      WATERMARK_TEXT ++
      "</div>\n\t\t\t\t<div class=\"watermark middle-right\" aria-hidden=\"true\">" ++
      WATERMARK_TEXT ++
      "</div>\n\t\t\t\t<div class=\"watermark diagonal-1\" aria-hidden=\"true\">" ++
      WATERMARK_TEXT ++
      "</div>\n\t\t\t\t<div class=\"watermark diagonal-2\" aria-hidden=\"true\">" ++
      WATERMARK_TEXT ++
      "</div>\n\t\t\t"
    else ""
  "\n\t\t<!DOCTYPE html>\n\t\t<html lang=\"pt-BR\">\n\t\t<head>\n\t\t\t<meta charset=\"UTF-8\">\n\t\t\t<meta name=\"viewport\" content=\"width=device-width, initial-scale=1.0\">\n\t\t\t<title>Jogos do Dia - " ++
  d.data ++
  "</title>\n\t\t\t<style>" ++
  css ++
  "</style>\n\t\t</head>\n\t\t<body>\n\t\t\t<main class=\"container\">\n\t\t\t\t<header class=\"header\">\n\t\t\t\t\t<h1 class=\"title\">JOGOS DO DIA</h1>\n\t\t\t\t\t<time class=\"date\" datetime=\"" ++
  d.data ++
  "\">" ++
  d.data ++
  "</time>\n\t\t\t\t</header>\n\t\t\t\t\n\t\t\t\t<section class=\"games\" aria-label=\"Lista de jogos\">\n\t\t\t\t\t<!-- Large background watermark behind games -->\n\t\t\t\t\t" ++
  behindWatermark ++
  "\n\t\t\t\t\t" ++
  gamesHTML ++
  "\n\t\t\t\t</section>\n\t\t\t\t\n\t\t\t\t" ++
  whatsappBlock ++
  "\n\t\t\t\t\n\t\t\t\t<!-- Company logo positioned absolutely in top-right -->\n\t\t\t\t<img src=\"" ++
  d.logoEmpresaUrl ++
  "\" alt=\"Logo da empresa\" class=\"company-logo\" />\n\t\t\t</main>\n\t\t\t\n\t\t\t" ++
  cornerWatermarks ++
  "\n\t\t</body>\n\t\t</html>\n\t"

/-- htmlToImage (football-html route lines 515-550): a JPEG screenshot at
quality 95 when puppeteer is importable, otherwise the raw HTML bytes. -/
def htmlToImage (w : World) (html : String) (width height : ℚ) : Img :=
  if w.puppeteer then .screenshot html width height 95 else .htmlBuf html

/-- The POST /generate-football-html handler (football-html route lines
574-641): one portrait 1080x1920 render of the generated page, delivered
inline or saved with a one-hour expiry. -/
def footballHtmlRoute (isUrl : String → Bool) (w : World) (cwd : List String) (fs : FSMap)
    (req : Req) (sessionId : String) (body : FootballBody) (q : QueryFlags) : GenResult :=
  if validateFootballBody isUrl body then
    let useBase64 := parseQFlag q.base64
    let html := generateHTML body
    let imageBuffer := htmlToImage w html 1080 1920
    if useBase64 then
      { status := 200
        usedBase64 := useBase64
        renders := [(1080, 1920)]
        fetches := []
        delivered := [imageBuffer]
        saved := []
        fs := fs
        delays := []
        expiresIn := none }
    else
      let r := saveImageAndGetLink cwd fs imageBuffer ("football_html_" ++ sessionId ++ "_portrait.jpg") req
      { status := 200
        usedBase64 := useBase64
        renders := [(1080, 1920)]
        fetches := []
        delivered := []
        saved := [(r.path, imageBuffer)]
        fs := r.fs
        delays := [r.delayMs]
        expiresIn := some "1 hour" }
  else
    { status := setErrorHandlerStatus .validation
      usedBase64 := parseQFlag q.base64
      renders := []
      fetches := []
      delivered := []
      saved := []
      fs := fs
      delays := []
      expiresIn := none }

/-! ## The unregistered src/imageGenerate.ts /generate-images handler
(lines 776-835), which persists with a 30-minute timer and advertises
`expiresAt` 30 minutes from now. -/

/-- imageGenerationSchema of src/imageGenerate.ts (lines 25-34). -/
structure IGBody : Type where
  logoUrl : String
  contato : Option String
  whatsapp : Option String
  capaFilmeUrl : String
  fundoUrl : Option String
  titulo : String
  descricao : String
  corFundo : Option String
deriving DecidableEq

/-- Outcome of the imageGenerate.ts handler: files saved, deletion delays
scheduled, and the advertised absolute expiry time (ms since epoch). -/
structure IGResult : Type where
  status : ℕ
  saved : List (List String × Img)
  fs : FSMap
  delays : List ℕ
  expiresAtMs : ℕ

/-- The POST /generate-images handler of src/imageGenerate.ts (lines
776-835).  Its createPromotionalImage differs in layout from the movie
route and is abstracted as the `render` parameter; the claims about this
handler concern only its persistence and advertised expiry.  `now` is
`Date.now()` at response time. -/
def imageGenerateRouteIG (render : IGBody → ℚ → ℚ → Img) (cwd : List String) (fs : FSMap)
    (req : Req) (sessionId : String) (body : IGBody) (now : ℕ) : IGResult :=
  let landscapeImage := render body 1920 1080
  let portraitImage := render body 1080 1920
  let squareImage := render body 1080 1080
  let r1 := saveImageAndGetLinkIG cwd fs landscapeImage (sessionId ++ "_landscape.jpg") req
  let r2 := saveImageAndGetLinkIG cwd r1.fs portraitImage (sessionId ++ "_portrait.jpg") req
  let r3 := saveImageAndGetLinkIG cwd r2.fs squareImage (sessionId ++ "_square.jpg") req
  { status := 200
    saved := [(r1.path, landscapeImage), (r2.path, portraitImage), (r3.path, squareImage)]
    fs := r3.fs
    delays := [r1.delayMs, r2.delayMs, r3.delayMs]
    expiresAtMs := now + 30 * 60 * 1000 }

/-! ## Text-blanking maps used to state that the SVG overlay depends on
user text only through escapeXml. -/

/-- Blank the channel name, keeping the structure. -/
def blankCanal (c : Canal) : Canal := { c with channelName := "" }

/-- Blank every text field of a game, keeping list lengths and option
shapes. -/
def blankJogo (j : Jogo) : Jogo :=
  { j with
    timeHome := ""
    timeAway := ""
    horario := ""
    canais := j.canais.map (fun cs => cs.map blankCanal) }

/-! ## Theorems.  First the escapeXml lemma library, then one theorem
per claim. -/

theorem replaceChar_append (c : Char) (rep : List Char) (l1 l2 : List Char) :
    replaceChar c rep (l1 ++ l2) = replaceChar c rep l1 ++ replaceChar c rep l2 := by
  induction l1 with
  | nil => simp [replaceChar]
  | cons a t ih => simp [replaceChar, ih]

theorem escapeXmlL_cons (a : Char) (s : List Char) :
    escapeXmlL (a :: s) = escChar a ++ escapeXmlL s := by
  by_cases h1 : a = '&'
  · subst h1
    simp [escapeXmlL, replaceChar, replaceChar_append, escChar, ampEnt, ltEnt, gtEnt, quotEnt, aposEnt]
  · by_cases h2 : a = '<'
    · subst h2
      simp [escapeXmlL, replaceChar, replaceChar_append, escChar, ampEnt, ltEnt, gtEnt, quotEnt, aposEnt]
    · by_cases h3 : a = '>'
      · subst h3
        simp [escapeXmlL, replaceChar, replaceChar_append, escChar, ampEnt, ltEnt, gtEnt, quotEnt, aposEnt]
      · by_cases h4 : a = '"'
        · subst h4
          simp [escapeXmlL, replaceChar, replaceChar_append, escChar, ampEnt, ltEnt, gtEnt, quotEnt, aposEnt]
        · by_cases h5 : a = '\''
          · subst h5
            simp [escapeXmlL, replaceChar, replaceChar_append, escChar, ampEnt, ltEnt, gtEnt, quotEnt, aposEnt]
          · simp [escapeXmlL, replaceChar, replaceChar_append, escChar, h1, h2, h3, h4, h5,
              ampEnt, ltEnt, gtEnt, quotEnt, aposEnt]

theorem unescape_nil : unescapeXml [] = [] := by rw [unescapeXml.eq_def]

theorem entStep_amp (t : List Char) : entStep (ampEnt ++ t) = some ('&', t) := by
  simp [entStep, ampEnt, List.isPrefixOf]

theorem entStep_lt (t : List Char) : entStep (ltEnt ++ t) = some ('<', t) := by
  simp [entStep, ampEnt, ltEnt, List.isPrefixOf]

theorem entStep_gt (t : List Char) : entStep (gtEnt ++ t) = some ('>', t) := by
  simp [entStep, ampEnt, ltEnt, gtEnt, List.isPrefixOf]

theorem entStep_quot (t : List Char) : entStep (quotEnt ++ t) = some ('"', t) := by
  simp [entStep, ampEnt, ltEnt, gtEnt, quotEnt, List.isPrefixOf]

theorem entStep_apos (t : List Char) : entStep (aposEnt ++ t) = some ('\'', t) := by
  simp [entStep, ampEnt, ltEnt, gtEnt, quotEnt, aposEnt, List.isPrefixOf]

theorem entStep_plain (a : Char) (t : List Char) (h : a ≠ '&') : entStep (a :: t) = none := by
  have hb : ('&' == a) = false := by simp [Ne.symm h]
  simp [entStep, ampEnt, ltEnt, gtEnt, quotEnt, aposEnt, List.isPrefixOf, hb]

theorem unescape_ent {a : Char} {t : List Char} {c : Char} {r : List Char}
    (h : entStep (a :: t) = some (c, r)) :
    unescapeXml (a :: t) = c :: unescapeXml r := by
  rw [unescapeXml.eq_def]
  split
  · rename_i heq
    exact absurd heq (List.cons_ne_nil a t)
  · rename_i heq
    injection heq with h1 h2
    subst h1
    subst h2
    split
    · rename_i cr heq2
      rw [h] at heq2
      cases heq2
      rfl
    · rename_i heq2
      rw [h] at heq2
      cases heq2

theorem unescape_plain (a : Char) (t : List Char) (h : a ≠ '&') :
    unescapeXml (a :: t) = a :: unescapeXml t := by
  rw [unescapeXml.eq_def]
  split
  · rename_i heq
    exact absurd heq (List.cons_ne_nil a t)
  · rename_i heq
    injection heq with h1 h2
    subst h1
    subst h2
    split
    · rename_i cr heq2
      rw [entStep_plain a t h] at heq2
      cases heq2
    · rfl

theorem unescape_amp (t : List Char) : unescapeXml (ampEnt ++ t) = '&' :: unescapeXml t :=
  unescape_ent (entStep_amp t)

theorem unescape_lt (t : List Char) : unescapeXml (ltEnt ++ t) = '<' :: unescapeXml t :=
  unescape_ent (entStep_lt t)

theorem unescape_gt (t : List Char) : unescapeXml (gtEnt ++ t) = '>' :: unescapeXml t :=
  unescape_ent (entStep_gt t)

theorem unescape_quot (t : List Char) : unescapeXml (quotEnt ++ t) = '"' :: unescapeXml t :=
  unescape_ent (entStep_quot t)

theorem unescape_apos (t : List Char) : unescapeXml (aposEnt ++ t) = '\'' :: unescapeXml t :=
  unescape_ent (entStep_apos t)

theorem unescape_escape (s : List Char) : unescapeXml (escapeXmlL s) = s := by
  induction s with
  | nil => exact unescape_nil
  | cons a t ih =>
    rw [escapeXmlL_cons]
    by_cases h1 : a = '&'
    · subst h1
      rw [show escChar '&' = ampEnt from rfl, unescape_amp, ih]
    · by_cases h2 : a = '<'
      · subst h2
        rw [show escChar '<' = ltEnt from rfl, unescape_lt, ih]
      · by_cases h3 : a = '>'
        · subst h3
          rw [show escChar '>' = gtEnt from rfl, unescape_gt, ih]
        · by_cases h4 : a = '"'
          · subst h4
            rw [show escChar '"' = quotEnt from rfl, unescape_quot, ih]
          · by_cases h5 : a = '\''
            · subst h5
              rw [show escChar '\'' = aposEnt from rfl, unescape_apos, ih]
            · rw [show escChar a = [a] by simp [escChar, h1, h2, h3, h4, h5]]
              rw [List.singleton_append, unescape_plain a _ h1, ih]

theorem escaped_chunks_escape (s : List Char) : EscapedChunks (escapeXmlL s) := by
  induction s with
  | nil => exact EscapedChunks.nil
  | cons a t ih =>
    rw [escapeXmlL_cons]
    by_cases h1 : a = '&'
    · subst h1
      exact EscapedChunks.amp _ ih
    · by_cases h2 : a = '<'
      · subst h2
        exact EscapedChunks.lt _ ih
      · by_cases h3 : a = '>'
        · subst h3
          exact EscapedChunks.gt _ ih
        · by_cases h4 : a = '"'
          · subst h4
            exact EscapedChunks.quot _ ih
          · by_cases h5 : a = '\''
            · subst h5
              exact EscapedChunks.apos _ ih
            · rw [show escChar a = [a] by simp [escChar, h1, h2, h3, h4, h5]]
              rw [List.singleton_append]
              exact EscapedChunks.plain a _ h1 h2 h3 h4 h5 ih

theorem escapeXml_injective : Function.Injective escapeXml := by
  intro s1 s2 h
  have hd : escapeXmlL s1.data = escapeXmlL s2.data := congrArg String.data h
  have := congrArg unescapeXml hd
  rw [unescape_escape, unescape_escape] at this
  cases s1
  cases s2
  exact congrArg String.mk this

theorem countEscZero (c : Char) (s : List Char)
    (hc : c = '<' ∨ c = '>' ∨ c = '"' ∨ c = '\'') :
    (escapeXmlL s).count c = 0 := by
  induction s with
  | nil => simp [escapeXmlL, replaceChar]
  | cons a t ih =>
    rw [escapeXmlL_cons, List.count_append, ih, Nat.add_zero]
    by_cases h1 : a = '&'
    · subst h1
      rcases hc with rfl | rfl | rfl | rfl <;> decide
    · by_cases h2 : a = '<'
      · subst h2
        rcases hc with rfl | rfl | rfl | rfl <;> decide
      · by_cases h3 : a = '>'
        · subst h3
          rcases hc with rfl | rfl | rfl | rfl <;> decide
        · by_cases h4 : a = '"'
          · subst h4
            rcases hc with rfl | rfl | rfl | rfl <;> decide
          · by_cases h5 : a = '\''
            · subst h5
              rcases hc with rfl | rfl | rfl | rfl <;> decide
            · rw [show escChar a = [a] by simp [escChar, h1, h2, h3, h4, h5]]
              rcases hc with rfl | rfl | rfl | rfl <;> simp [List.count_singleton, h2, h3, h4, h5]

/-- C9: for every input string, escapeXml produces a string in which the
markup-special characters &, <, >, " and ' occur only inside the five
produced entities; applying the inverse entity substitution returns
exactly the input; and the escaping is injective. -/
theorem c9_escapeXml_escaped_roundtrip_injective (s : String) :
    EscapedChunks (escapeXml s).data ∧ unescapeXml (escapeXml s).data = s.data ∧
      Function.Injective escapeXml :=
  ⟨escaped_chunks_escape s.data, unescape_escape s.data, escapeXml_injective⟩
theorem downloadImage_ok_shape {w : World} {url : String} {width height : ℚ} {img : Img}
    (h : downloadImage w url width height = .ok img) :
    ∃ bytes, img = .png (.resizedCover (.fetched bytes) width height) := by
  unfold downloadImage at h
  cases hf : w.fetch url with
  | netError => rw [hf] at h; cases h
  | response status bytes =>
    rw [hf] at h
    by_cases hok : respOk status
    · simp [hok] at h
      by_cases hdec : w.decodable bytes
      · simp [hdec] at h
        exact ⟨bytes, h.symm⟩
      · simp [hdec] at h
    · simp [hok] at h

/-- C1: downloadImageWithFallback never propagates a failure: for every
fetch world, URL and requested dimensions it returns a buffer of exactly
the requested width and height; on a network error, a non-2xx status or
a decode failure it returns the generated grey placeholder with the
fallback label at the requested size, and on success it returns the
fetched image resized to those dimensions. -/
theorem c1_downloadImageWithFallback_total (w : World) (url : String)
    (width height : ℚ) (t : String) :
    imgWidth (downloadImageWithFallback w url width height t) = width ∧
    imgHeight (downloadImageWithFallback w url width height t) = height ∧
    (∀ e, downloadImage w url width height = .error e →
      downloadImageWithFallback w url width height t =
        createPlaceholderImage w.showNum width height "#666666" t) ∧
    (∀ img, downloadImage w url width height = .ok img →
      downloadImageWithFallback w url width height t = img ∧
      ∃ bytes, img = .png (.resizedCover (.fetched bytes) width height)) := by
  unfold downloadImageWithFallback
  rcases hd : downloadImage w url width height with e | img
  · refine ⟨rfl, rfl, fun e' _ => rfl, fun img hok => ?_⟩
    cases hok
  · obtain ⟨bytes, rfl⟩ := downloadImage_ok_shape hd
    refine ⟨rfl, rfl, fun e' herr => ?_, fun img' hok => ?_⟩
    · cases herr
    · cases hok
      exact ⟨rfl, bytes, rfl⟩

/-- Witness for C1 at a concrete failing world. -/
theorem c1_witness :
    downloadImageWithFallback ⟨fun _ => .netError, fun _ => true, fun _ => "", false⟩
        "http://x.example/a.png" 300 300 "IMAGE" =
      createPlaceholderImage (fun _ => "") 300 300 "#666666" "IMAGE" ∧
    imgWidth (downloadImageWithFallback ⟨fun _ => .netError, fun _ => true, fun _ => "", false⟩
        "http://x.example/a.png" 300 300 "IMAGE") = 300 :=
  ⟨(c1_downloadImageWithFallback_total ⟨fun _ => .netError, fun _ => true, fun _ => "", false⟩
      "http://x.example/a.png" 300 300 "IMAGE").2.2.1 "fetch failed" rfl,
   (c1_downloadImageWithFallback_total ⟨fun _ => .netError, fun _ => true, fun _ => "", false⟩
      "http://x.example/a.png" 300 300 "IMAGE").1⟩

/-- Helper: path normalisation leaves a list of ordinary segments
(no empty, dot or dot-dot entries) unchanged. -/
theorem normStep_clean (l : List String) (acc : List String)
    (hclean : ∀ s ∈ l, s ≠ "" ∧ s ≠ "." ∧ s ≠ "..") :
    List.foldl
      (fun acc seg =>
        if seg = "" ∨ seg = "." then acc
        else if seg = ".." then acc.dropLast
        else acc ++ [seg]) acc l = acc ++ l := by
  induction l generalizing acc with
  | nil => simp
  | cons a t ih =>
    have ha := hclean a (by simp)
    have ht : ∀ s ∈ t, s ≠ "" ∧ s ≠ "." ∧ s ≠ ".." := fun s hs => hclean s (by simp [hs])
    simp only [List.foldl_cons]
    rw [if_neg (by simp [ha.1, ha.2.1]), if_neg (by simp [ha.2.2]), ih _ ht]
    simp

/-- C2: for every filename whose file is absent from the uploads
directory, GET /download/:filename answers 404 — both when the file was
never written and after the retention timer has deleted a
previously-saved file. -/
theorem c2_download_absent_404 (cwd : List String) (fs : FSMap) (f : String) :
    (fs (pathJoin (uploadsDirSegs cwd) f) = none →
      (downloadHandler cwd fs f).status = 404 ∧ (downloadHandler cwd fs f).body = none) ∧
    (∀ img req,
      (downloadHandler cwd
        (timerFire (saveImageAndGetLink cwd fs img f req).fs
          (pathJoin (uploadsDirSegs cwd) f)) f).status = 404) := by
  constructor
  · intro h
    simp [downloadHandler, h]
  · intro img req
    simp [downloadHandler, timerFire, saveImageAndGetLink]

/-- Witness for C2 on an empty filesystem. -/
theorem c2_witness :
    ((fun _ => none : FSMap) (pathJoin (uploadsDirSegs ["srv", "app"]) "missing.jpg") = none) ∧
    (downloadHandler ["srv", "app"] (fun _ => none) "missing.jpg").status = 404 ∧
    (downloadHandler ["srv", "app"]
      (timerFire
        (saveImageAndGetLink ["srv", "app"] (fun _ => none) (.fetched []) "missing.jpg"
          ⟨none, none, "h", false, "http"⟩).fs
        (pathJoin (uploadsDirSegs ["srv", "app"]) "missing.jpg")) "missing.jpg").status = 404 :=
  ⟨rfl,
   ((c2_download_absent_404 ["srv", "app"] (fun _ => none) "missing.jpg").1 rfl).1,
   (c2_download_absent_404 ["srv", "app"] (fun _ => none) "missing.jpg").2 (.fetched [])
     ⟨none, none, "h", false, "http"⟩⟩

/-- C10 (amended): the download handler serves exactly the file at
path.join(UPLOADS_DIR, filename) with no sanitisation of the filename;
a filename with leading dot-dot segments resolves (and is served)
outside the uploads directory, while a plain separator keeps the
resolved path inside the uploads subtree. -/
theorem c10_download_unsanitised (cwd : List String) (fs : FSMap) (f : String)
    (hclean : ∀ s ∈ cwd, s ≠ "" ∧ s ≠ "." ∧ s ≠ "..") :
    (∀ img, fs (pathJoin (uploadsDirSegs cwd) f) = some img →
      (downloadHandler cwd fs f).status = 200 ∧ (downloadHandler cwd fs f).body = some img) ∧
    pathJoin (uploadsDirSegs cwd) "../escaped.jpg" = cwd ++ ["escaped.jpg"] ∧
    ¬ uploadsDirSegs cwd <+: cwd ++ ["escaped.jpg"] := by
  refine ⟨fun img h => ?_, ?_, ?_⟩
  · simp [downloadHandler, h]
  · show normSegs (uploadsDirSegs cwd ++ splitPath "../escaped.jpg") = cwd ++ ["escaped.jpg"]
    rw [show splitPath "../escaped.jpg" = ["..", "escaped.jpg"] by decide]
    unfold normSegs uploadsDirSegs
    rw [show (cwd ++ ["temp-images"]) ++ ["..", "escaped.jpg"]
        = cwd ++ ["temp-images", "..", "escaped.jpg"] by simp]
    rw [List.foldl_append]
    rw [normStep_clean cwd [] hclean]
    simp
  · intro hpre
    unfold uploadsDirSegs at hpre
    obtain ⟨tail, htail⟩ := hpre
    rw [List.append_assoc] at htail
    have h2 := List.append_cancel_left htail
    have h3 := congrArg List.head? h2
    simp at h3

/-- Witness for C10: a dot-dot filename is resolved to the parent
directory and served from there. -/
theorem c10_witness :
    ((fun p => if p = ["srv", "escaped.jpg"] then some (Img.fetched [7]) else none : FSMap)
        (pathJoin (uploadsDirSegs ["srv"]) "../escaped.jpg") = some (Img.fetched [7])) ∧
    (downloadHandler ["srv"]
        (fun p => if p = ["srv", "escaped.jpg"] then some (Img.fetched [7]) else none)
        "../escaped.jpg").status = 200 ∧
    ¬ uploadsDirSegs ["srv"] <+: ["srv"] ++ ["escaped.jpg"] := by
  have hp : pathJoin (uploadsDirSegs ["srv"]) "../escaped.jpg" = ["srv", "escaped.jpg"] := by
    decide
  have hfs : ((fun p => if p = ["srv", "escaped.jpg"] then some (Img.fetched [7]) else none : FSMap)
      (pathJoin (uploadsDirSegs ["srv"]) "../escaped.jpg") = some (Img.fetched [7])) := by
    rw [hp]
    simp
  refine ⟨hfs, ?_, ?_⟩
  · exact ((c10_download_unsanitised ["srv"]
      (fun p => if p = ["srv", "escaped.jpg"] then some (Img.fetched [7]) else none)
      "../escaped.jpg" (by decide)).1 (Img.fetched [7]) hfs).1
  · exact (c10_download_unsanitised ["srv"] (fun _ => none) "../escaped.jpg" (by decide)).2.2

/-- Counterexample for C10 as stated: the filename "a/b" contains a path
separator, yet the resolved path stays inside the uploads directory. -/
theorem c10_counterexample :
    pathJoin (uploadsDirSegs ["srv", "app"]) "a/b" = ["srv", "app", "temp-images", "a", "b"] ∧
    uploadsDirSegs ["srv", "app"] <+: pathJoin (uploadsDirSegs ["srv", "app"]) "a/b" := by
  constructor
  · decide
  · decide

/-- Character counts distribute over string append. -/
theorem countChar_append (c : Char) (a b : String) :
    countChar c (a ++ b) = countChar c a + countChar c b := by
  simp [countChar]

/-- escapeXml output never contains a raw <, >, double quote or
apostrophe. -/
theorem countChar_escape (c : Char) (s : String)
    (hc : c = '<' ∨ c = '>' ∨ c = '"' ∨ c = '\'') :
    countChar c (escapeXml s) = 0 := by
  simpa [countChar, escapeXml] using countEscZero c s.data hc

/-- Markup-delimiter counts of the time display do not depend on the
game time text. -/
theorem count_createTimeDisplay (c : Char) (sn : ℚ → String) (cx gy fsz : ℚ) (h1 h2 : String)
    (hc : c = '<' ∨ c = '>' ∨ c = '"' ∨ c = '\'') :
    countChar c (createTimeDisplay sn cx gy h1 fsz) =
      countChar c (createTimeDisplay sn cx gy h2 fsz) := by
  simp [createTimeDisplay, countChar_append, countChar_escape _ _ hc]

/-- Markup-delimiter counts of a team display do not depend on the team
name. -/
theorem count_createTeamDisplay (c : Char) (sn : ℚ → String) (n1 n2 : String) (x y fsz : ℚ)
    (al : TeamAlign) (hc : c = '<' ∨ c = '>' ∨ c = '"' ∨ c = '\'') :
    countChar c (createTeamDisplay sn n1 x y fsz al) =
      countChar c (createTeamDisplay sn n2 x y fsz al) := by
  simp [createTeamDisplay, countChar_append, countChar_escape _ _ hc]

/-- Markup-delimiter counts of the channel text loop do not depend on
the channel names. -/
theorem count_channelTexts (c : Char) (sn : ℚ → String) (sx gy pw fsz : ℚ)
    (hc : c = '<' ∨ c = '>' ∨ c = '"' ∨ c = '\'') :
    ∀ (cs : List Canal) (i : ℕ),
      countChar c (channelTexts sn sx gy pw fsz cs i) =
        countChar c (channelTexts sn sx gy pw fsz (cs.map blankCanal) i) := by
  intro cs
  induction cs with
  | nil => intro i; rfl
  | cons a t ih =>
    intro i
    simp only [List.map_cons, channelTexts]
    simp [countChar_append, countChar_escape _ _ hc, ih (i + 1)]

/-- Markup-delimiter counts of the channel block do not depend on the
channel names. -/
theorem count_createChannelDisplay (c : Char) (sn : ℚ → String) (cx gy fsz : ℚ)
    (cs : List Canal) (hc : c = '<' ∨ c = '>' ∨ c = '"' ∨ c = '\'') :
    countChar c (createChannelDisplay sn cx gy cs fsz) =
      countChar c (createChannelDisplay sn cx gy (cs.map blankCanal) fsz) := by
  unfold createChannelDisplay
  rw [List.length_map]
  by_cases h0 : cs.length = 0
  · rw [if_pos h0, if_pos h0]
  · rw [if_neg h0, if_neg h0]
    dsimp only
    rw [← List.map_take]
    simp only [countChar_append]
    rw [count_channelTexts c sn _ _ _ _ hc]

/-- Markup-delimiter counts of a game section do not depend on any of
the game text fields. -/
theorem count_createGameSection (c : Char) (sn : ℚ → String) (width gy : ℚ) (gi : ℕ)
    (j : Jogo) (tfs tifs cfs : ℚ) (hc : c = '<' ∨ c = '>' ∨ c = '"' ∨ c = '\'') :
    countChar c (createGameSection sn width gy gi j tfs tifs cfs) =
      countChar c (createGameSection sn width gy gi (blankJogo j) tfs tifs cfs) := by
  unfold createGameSection
  dsimp only
  simp only [countChar_append]
  rw [count_createTimeDisplay c sn _ _ _ j.horario (blankJogo j).horario hc]
  rw [count_createTeamDisplay c sn j.timeHome (blankJogo j).timeHome _ _ _ _ hc]
  rw [count_createTeamDisplay c sn j.timeAway (blankJogo j).timeAway _ _ _ _ hc]
  have hch :
      countChar c
        (match j.canais with
         | some cs => if cs.length > 0 then createChannelDisplay sn (width / 2) gy cs cfs else ""
         | none => "") =
      countChar c
        (match (blankJogo j).canais with
         | some cs => if cs.length > 0 then createChannelDisplay sn (width / 2) gy cs cfs else ""
         | none => "") := by
    cases hcs : j.canais with
    | none => simp [blankJogo, hcs]
    | some cs =>
      simp only [blankJogo, hcs, Option.map_some']
      rw [List.length_map]
      by_cases hlen : cs.length > 0
      · rw [if_pos hlen, if_pos hlen]
        exact count_createChannelDisplay c sn _ gy _ cs hc
      · rw [if_neg hlen, if_neg hlen]
  rw [hch]

/-- Markup-delimiter counts of the game loop do not depend on the game
text fields. -/
theorem count_gameSections (c : Char) (sn : ℚ → String) (width gsy gsp tfs tifs cfs : ℚ)
    (hc : c = '<' ∨ c = '>' ∨ c = '"' ∨ c = '\'') :
    ∀ (jogos : List Jogo) (idx : ℕ),
      countChar c (gameSections sn width gsy gsp tfs tifs cfs jogos idx) =
        countChar c (gameSections sn width gsy gsp tfs tifs cfs (jogos.map blankJogo) idx) := by
  intro jogos
  induction jogos with
  | nil => intro idx; rfl
  | cons j rest ih =>
    intro idx
    simp only [List.map_cons, gameSections, countChar_append]
    rw [count_createGameSection c sn _ _ _ j _ _ _ hc, ih (idx + 1)]

/-- Markup-delimiter counts of the header do not depend on the date
text. -/
theorem count_createHeader (c : Char) (sn : ℚ → String) (width : ℚ) (d1 d2 : String)
    (t f m : ℚ) (hc : c = '<' ∨ c = '>' ∨ c = '"' ∨ c = '\'') :
    countChar c (createHeader sn width d1 t f m) = countChar c (createHeader sn width d2 t f m) := by
  simp [createHeader, countChar_append, countChar_escape _ _ hc]

/-- Markup-delimiter counts of the contact section do not depend on the
WhatsApp text. -/
theorem count_createContactSection (c : Char) (sn : ℚ → String) (width cy : ℚ)
    (w1 w2 : String) (fsz : ℚ) (hc : c = '<' ∨ c = '>' ∨ c = '"' ∨ c = '\'') :
    countChar c (createContactSection sn width cy w1 fsz) =
      countChar c (createContactSection sn width cy w2 fsz) := by
  simp [createContactSection, countChar_append, countChar_escape _ _ hc]

/-- C4 (amended, SVG path): the overlay builder inserts user text only
through escapeXml, so the number of markup delimiters `<`, `>`, `"`, `'`
in the generated overlay does not depend on the user text at all: the
count is unchanged when every text field is blanked. -/
theorem c4_svg_overlay_escapes_user_text (sn : ℚ → String) (width height : ℚ)
    (data : String) (jogos : List Jogo) (whatsapp : Option String) (c : Char)
    (hc : c = '<' ∨ c = '>' ∨ c = '"' ∨ c = '\'') :
    countChar c (createFootballScheduleOverlay sn width height data jogos whatsapp) =
      countChar c (createFootballScheduleOverlay sn width height ""
        (jogos.map blankJogo) (whatsapp.map fun _ => "")) := by
  unfold createFootballScheduleOverlay
  dsimp only
  rw [List.length_map]
  simp only [countChar_append]
  rw [count_createHeader c sn _ data "" _ _ _ hc]
  rw [count_gameSections c sn _ _ _ _ _ _ hc jogos 0]
  have hcontact :
      countChar c
        (match whatsapp with
         | some wa => createContactSection sn width
             (200 + (jogos.length : ℚ) * 180 + 60) wa (min (width * 0.07) 50)
         | none => "") =
      countChar c
        (match whatsapp.map (fun _ => "") with
         | some wa => createContactSection sn width
             (200 + (jogos.length : ℚ) * 180 + 60) wa (min (width * 0.07) 50)
         | none => "") := by
    cases whatsapp with
    | none => rfl
    | some wa =>
      simp only [Option.map_some']
      exact count_createContactSection c sn _ _ wa "" _ hc
  rw [hcontact]

/-- Witness for the amended C4 at a concrete request with markup
characters in its text fields. -/
theorem c4_witness :
    countChar '<'
        (createFootballScheduleOverlay (fun _ => "") 1080 1920 "01/01"
          [⟨"a<b", "http://h.example/h.png", "c\"d", "http://a.example/a.png", "10:00", none⟩]
          (some "85<9")) =
      countChar '<'
        (createFootballScheduleOverlay (fun _ => "") 1080 1920 ""
          ([⟨"a<b", "http://h.example/h.png", "c\"d", "http://a.example/a.png", "10:00", none⟩].map blankJogo)
          ((some "85<9").map fun _ => "")) :=
  c4_svg_overlay_escapes_user_text (fun _ => "") 1080 1920 "01/01"
    [⟨"a<b", "http://h.example/h.png", "c\"d", "http://a.example/a.png", "10:00", none⟩]
    (some "85<9") '<' (Or.inl rfl)

/-- Helper: an infix of a list is an infix of any left extension. -/
theorem infix_append_head {α : Type} {l m : List α} (n : List α) (h : l <:+: m) :
    l <:+: n ++ m := by
  obtain ⟨s, t, hst⟩ := h
  exact ⟨n ++ s, t, by rw [← hst]; simp [List.append_assoc]⟩

/-- Helper: a list is an infix of itself followed by anything. -/
theorem infix_head {α : Type} (l n : List α) : l <:+: l ++ n := ⟨[], n, rfl⟩

/-- Counterexample for C4 as stated: in the HTML/screenshot path the
team name "a<b" is embedded raw — the upper-cased raw text A<B occurs in
the generated card and the escaped form A&lt;B does not. -/
theorem c4_counterexample :
    (['A', '<', 'B'] <:+:
      (gameCardHTML ⟨"a<b", "http://h.example/h.png", "cd", "http://a.example/a.png", "10:00", none⟩ 0 1).data) ∧
    ¬ (['A', '&', 'l', 't', ';', 'B'] <:+:
      (gameCardHTML ⟨"a<b", "http://h.example/h.png", "cd", "http://a.example/a.png", "10:00", none⟩ 0 1).data) := by
  constructor
  · have hpat : (['A', '<', 'B'] : List Char) = (jsToUpper "a<b").data := by decide
    rw [hpat]
    unfold gameCardHTML
    dsimp only
    simp only [String.data_append, List.append_assoc]
    apply infix_append_head
    apply infix_append_head
    apply infix_append_head
    apply infix_append_head
    apply infix_append_head
    apply infix_append_head
    apply infix_append_head
    apply infix_append_head
    apply infix_append_head
    exact infix_head _ _
  · intro hinf
    have hm : '&' ∈ (gameCardHTML ⟨"a<b", "http://h.example/h.png", "cd", "http://a.example/a.png", "10:00", none⟩ 0 1).data :=
      hinf.subset (by decide)
    have h0 : countChar '&'
        (gameCardHTML ⟨"a<b", "http://h.example/h.png", "cd", "http://a.example/a.png", "10:00", none⟩ 0 1) = 0 := by
      unfold gameCardHTML
      dsimp only
      simp only [countChar_append]
      decide
    rw [countChar, List.count_eq_zero] at h0
    exact h0 hm

/-- C3: a body with more than 5 jogos fails schema validation, so the
request is answered 400 by setErrorHandler and the handler body is never
entered: no render, no asset fetch, no file write, filesystem
unchanged. -/
theorem c3_over_five_games_rejected (isUrl : String → Bool) (w : World) (cwd : List String)
    (fs : FSMap) (req : Req) (sid : String) (body : FootballBody) (q : QueryFlags)
    (hlen : 5 < body.jogos.length) :
    (footballScheduleRoute isUrl w cwd fs req sid body q).status = 400 ∧
    (footballScheduleRoute isUrl w cwd fs req sid body q).renders = [] ∧
    (footballScheduleRoute isUrl w cwd fs req sid body q).fetches = [] ∧
    (footballScheduleRoute isUrl w cwd fs req sid body q).delivered = [] ∧
    (footballScheduleRoute isUrl w cwd fs req sid body q).saved = [] ∧
    (footballScheduleRoute isUrl w cwd fs req sid body q).delays = [] ∧
    (footballScheduleRoute isUrl w cwd fs req sid body q).fs = fs := by
  have h5 : ¬ body.jogos.length ≤ 5 := by omega
  have hval : validateFootballBody isUrl body = false := by
    unfold validateFootballBody
    simp [h5]
  unfold footballScheduleRoute
  rw [hval]
  exact ⟨rfl, rfl, rfl, rfl, rfl, rfl, rfl⟩

/-- Witness for C3 with a six-game request body. -/
theorem c3_witness :
    5 < (List.replicate 6
        (⟨"t1", "http://h.example/h.png", "t2", "http://a.example/a.png", "10:00", none⟩ : Jogo)).length ∧
    (footballScheduleRoute (fun _ => true)
        ⟨fun _ => .netError, fun _ => true, fun _ => "", false⟩ ["srv"] (fun _ => none)
        ⟨none, none, "h", false, "http"⟩ "sid"
        ⟨"http://logo.example/l.png", "01/01",
          List.replicate 6 ⟨"t1", "http://h.example/h.png", "t2", "http://a.example/a.png", "10:00", none⟩,
          none, none, none⟩ ⟨none, none⟩).status = 400 :=
  ⟨by decide,
   (c3_over_five_games_rejected (fun _ => true)
      ⟨fun _ => .netError, fun _ => true, fun _ => "", false⟩ ["srv"] (fun _ => none)
      ⟨none, none, "h", false, "http"⟩ "sid"
      ⟨"http://logo.example/l.png", "01/01",
        List.replicate 6 ⟨"t1", "http://h.example/h.png", "t2", "http://a.example/a.png", "10:00", none⟩,
        none, none, none⟩ ⟨none, none⟩ (by decide)).1⟩

/-- Helper: the football handler inline-mode flag equals the parsed
base64 query flag in every branch. -/
theorem football_usedBase64_eq (isUrl : String → Bool) (w : World) (cwd : List String)
    (fs : FSMap) (req : Req) (sid : String) (fb : FootballBody) (q : QueryFlags) :
    (footballScheduleRoute isUrl w cwd fs req sid fb q).usedBase64 = parseQFlag q.base64 := by
  unfold footballScheduleRoute
  split
  · dsimp only
    split <;> rfl
  · rfl

/-- Helper: the movie handler inline-mode flag equals the parsed base64
query flag in every branch. -/
theorem movie_usedBase64_eq (isUrl : String → Bool) (w : World) (cwd : List String)
    (fs : FSMap) (req : Req) (sid : String) (mb : MovieBody) (q : QueryFlags) :
    (movieGenerateRoute isUrl w cwd fs req sid mb q).usedBase64 = parseQFlag q.base64 := by
  unfold movieGenerateRoute
  split
  · dsimp only
    split <;> rfl
  · rfl

/-- Helper: the zod transform yields true exactly on the string
"true". -/
theorem parseQFlag_true_iff (v : Option String) : parseQFlag v = true ↔ v = some "true" := by
  simp [parseQFlag]

/-- C8: a generation response is in base64 mode iff the raw query
parameter base64 equals the string "true"; in every other case —
neither flag, file=true, or another base64 value — the response is in
file-link mode, and base64 wins when both flags are "true" (the file
flag is never consulted when base64 is "true"). -/
theorem c8_base64_mode_iff (isUrl : String → Bool) (w : World) (cwd : List String)
    (fs : FSMap) (req : Req) (sid : String) (q : QueryFlags)
    (fb : FootballBody) (mb : MovieBody)
    (hfv : validateFootballBody isUrl fb = true)
    (hmv : validateMovieBody isUrl mb = true) :
    ((footballScheduleRoute isUrl w cwd fs req sid fb q).usedBase64 = true ↔
      q.base64 = some "true") ∧
    ((movieGenerateRoute isUrl w cwd fs req sid mb q).usedBase64 = true ↔
      q.base64 = some "true") ∧
    (q.base64 = some "true" →
      (footballScheduleRoute isUrl w cwd fs req sid fb q).delivered ≠ [] ∧
      (footballScheduleRoute isUrl w cwd fs req sid fb q).saved = [] ∧
      (footballScheduleRoute isUrl w cwd fs req sid fb q).expiresIn = none ∧
      (movieGenerateRoute isUrl w cwd fs req sid mb q).delivered ≠ [] ∧
      (movieGenerateRoute isUrl w cwd fs req sid mb q).saved = []) ∧
    (q.base64 ≠ some "true" →
      (footballScheduleRoute isUrl w cwd fs req sid fb q).delivered = [] ∧
      (footballScheduleRoute isUrl w cwd fs req sid fb q).saved ≠ [] ∧
      (footballScheduleRoute isUrl w cwd fs req sid fb q).expiresIn = some "1 hour" ∧
      (movieGenerateRoute isUrl w cwd fs req sid mb q).delivered = [] ∧
      (movieGenerateRoute isUrl w cwd fs req sid mb q).saved ≠ []) := by
  have hq : ∀ b, parseQFlag q.base64 = b → (q.base64 == some "true") = b := fun b hb => hb
  refine ⟨?_, ?_, ?_, ?_⟩
  · rw [football_usedBase64_eq]
    exact parseQFlag_true_iff q.base64
  · rw [movie_usedBase64_eq]
    exact parseQFlag_true_iff q.base64
  · intro h64
    have hp : parseQFlag q.base64 = true := (parseQFlag_true_iff q.base64).mpr h64
    unfold footballScheduleRoute movieGenerateRoute
    rw [hfv, hmv, hp]
    refine ⟨by simp, rfl, rfl, by simp, rfl⟩
  · intro h64
    have hp : parseQFlag q.base64 = false := by
      rcases hb : parseQFlag q.base64 with _ | _
      · rfl
      · exact absurd ((parseQFlag_true_iff q.base64).mp hb) h64
    unfold footballScheduleRoute movieGenerateRoute
    rw [hfv, hmv, hp]
    refine ⟨rfl, by simp, rfl, rfl, by simp⟩

/-- Witness for C8: base64 "true" with file "true" gives inline mode;
base64 "TRUE" falls back to file mode. -/
theorem c8_witness :
    (footballScheduleRoute (fun _ => true)
        ⟨fun _ => .netError, fun _ => true, fun _ => "", false⟩ ["srv"] (fun _ => none)
        ⟨none, none, "h", false, "http"⟩ "sid"
        ⟨"http://l.example/l.png", "01/01", [], none, none, none⟩
        ⟨some "true", some "true"⟩).usedBase64 = true ∧
    (footballScheduleRoute (fun _ => true)
        ⟨fun _ => .netError, fun _ => true, fun _ => "", false⟩ ["srv"] (fun _ => none)
        ⟨none, none, "h", false, "http"⟩ "sid"
        ⟨"http://l.example/l.png", "01/01", [], none, none, none⟩
        ⟨some "TRUE", some "true"⟩).saved ≠ [] :=
  ⟨(c8_base64_mode_iff (fun _ => true)
      ⟨fun _ => .netError, fun _ => true, fun _ => "", false⟩ ["srv"] (fun _ => none)
      ⟨none, none, "h", false, "http"⟩ "sid" ⟨some "true", some "true"⟩
      ⟨"http://l.example/l.png", "01/01", [], none, none, none⟩
      ⟨"http://l.example/l.png", none, none, "http://c.example/c.png", none, "T", "D"⟩
      (by decide) (by decide)).1.mpr rfl,
   ((c8_base64_mode_iff (fun _ => true)
      ⟨fun _ => .netError, fun _ => true, fun _ => "", false⟩ ["srv"] (fun _ => none)
      ⟨none, none, "h", false, "http"⟩ "sid" ⟨some "TRUE", some "true"⟩
      ⟨"http://l.example/l.png", "01/01", [], none, none, none⟩
      ⟨"http://l.example/l.png", none, none, "http://c.example/c.png", none, "T", "D"⟩
      (by decide) (by decide)).2.2.2 (by decide)).2.1⟩

/-- C5: for every valid body, the buffers delivered inline in base64
mode are exactly the buffers written to disk in file mode — the
rendering pipeline is a pure function of the request body and the fetch
world, and the two modes differ only in delivery (the filesystem,
request identity and session id of the file-mode request are arbitrary
and do not influence the bytes). -/
theorem c5_modes_pixel_identical (isUrl : String → Bool) (w : World) (cwd : List String)
    (fs fs' : FSMap) (req req' : Req) (sid sid' : String)
    (fb : FootballBody) (mb : MovieBody) (qb qf : QueryFlags)
    (hfv : validateFootballBody isUrl fb = true)
    (hmv : validateMovieBody isUrl mb = true)
    (hqb : qb.base64 = some "true") (hqf : qf.base64 ≠ some "true") :
    (footballScheduleRoute isUrl w cwd fs req sid fb qb).delivered =
      ((footballScheduleRoute isUrl w cwd fs' req' sid' fb qf).saved).map Prod.snd ∧
    (movieGenerateRoute isUrl w cwd fs req sid mb qb).delivered =
      ((movieGenerateRoute isUrl w cwd fs' req' sid' mb qf).saved).map Prod.snd := by
  have hpb : parseQFlag qb.base64 = true := (parseQFlag_true_iff _).mpr hqb
  have hpf : parseQFlag qf.base64 = false := by
    rcases hb : parseQFlag qf.base64 with _ | _
    · rfl
    · exact absurd ((parseQFlag_true_iff _).mp hb) hqf
  unfold footballScheduleRoute movieGenerateRoute
  rw [hfv, hmv, hpb, hpf]
  constructor <;> simp

/-- Witness for C5 at a concrete body and world. -/
theorem c5_witness :
    (footballScheduleRoute (fun _ => true)
        ⟨fun _ => .netError, fun _ => true, fun _ => "", false⟩ ["srv"] (fun _ => none)
        ⟨none, none, "h", false, "http"⟩ "sidA"
        ⟨"http://l.example/l.png", "01/01", [], none, none, none⟩
        ⟨some "true", none⟩).delivered =
      ((footballScheduleRoute (fun _ => true)
          ⟨fun _ => .netError, fun _ => true, fun _ => "", false⟩ ["srv"] (fun _ => none)
          ⟨none, none, "h", false, "http"⟩ "sidB"
          ⟨"http://l.example/l.png", "01/01", [], none, none, none⟩
          ⟨none, some "true"⟩).saved).map Prod.snd :=
  (c5_modes_pixel_identical (fun _ => true)
      ⟨fun _ => .netError, fun _ => true, fun _ => "", false⟩ ["srv"] (fun _ => none)
      (fun _ => none) ⟨none, none, "h", false, "http"⟩ ⟨none, none, "h", false, "http"⟩
      "sidA" "sidB"
      ⟨"http://l.example/l.png", "01/01", [], none, none, none⟩
      ⟨"http://l.example/l.png", none, none, "http://c.example/c.png", none, "T", "D"⟩
      ⟨some "true", none⟩ ⟨none, some "true"⟩
      (by decide) (by decide) rfl (by decide)).1

/-- C6 (amended): the movie and football-schedule endpoints render all
three aspect ratios — 1920x1080, 1080x1920 and 1080x1080 — from the one
parsed body, while the football-html endpoint renders only a single
1080x1920 portrait image of the generated page. -/
theorem c6_three_resolutions_amended (isUrl : String → Bool) (w : World) (cwd : List String)
    (fs : FSMap) (req : Req) (sid : String) (q : QueryFlags)
    (fb : FootballBody) (mb : MovieBody) (hb : FootballBody)
    (hfv : validateFootballBody isUrl fb = true)
    (hmv : validateMovieBody isUrl mb = true)
    (hhv : validateFootballBody isUrl hb = true) :
    (footballScheduleRoute isUrl w cwd fs req sid fb q).renders =
      [(1920, 1080), (1080, 1920), (1080, 1080)] ∧
    (movieGenerateRoute isUrl w cwd fs req sid mb q).renders =
      [(1920, 1080), (1080, 1920), (1080, 1080)] ∧
    (footballScheduleRoute isUrl w cwd fs req sid fb ⟨some "true", none⟩).delivered =
      [createFootballScheduleImage w fb 1920 1080,
       createFootballScheduleImage w fb 1080 1920,
       createFootballScheduleImage w fb 1080 1080] ∧
    (movieGenerateRoute isUrl w cwd fs req sid mb ⟨some "true", none⟩).delivered =
      [createPromotionalImage w mb 1920 1080,
       createPromotionalImage w mb 1080 1920,
       createPromotionalImage w mb 1080 1080] ∧
    (footballHtmlRoute isUrl w cwd fs req sid hb q).renders = [(1080, 1920)] ∧
    (footballHtmlRoute isUrl w cwd fs req sid hb ⟨some "true", none⟩).delivered =
      [htmlToImage w (generateHTML hb) 1080 1920] := by
  refine ⟨?_, ?_, ?_, ?_, ?_, ?_⟩
  · unfold footballScheduleRoute
    rw [if_pos hfv]
    dsimp only
    split <;> rfl
  · unfold movieGenerateRoute
    rw [if_pos hmv]
    dsimp only
    split <;> rfl
  · unfold footballScheduleRoute
    rw [if_pos hfv]
    rfl
  · unfold movieGenerateRoute
    rw [if_pos hmv]
    rfl
  · unfold footballHtmlRoute
    rw [if_pos hhv]
    dsimp only
    split <;> rfl
  · unfold footballHtmlRoute
    rw [if_pos hhv]
    rfl

/-- Counterexample for C6 as stated: the /generate-football-html
endpoint performs exactly one 1080x1920 render and no 1920x1080
render. -/
theorem c6_counterexample :
    (footballHtmlRoute (fun _ => true)
        ⟨fun _ => .netError, fun _ => true, fun _ => "", false⟩ ["srv"] (fun _ => none)
        ⟨none, none, "h", false, "http"⟩ "sid"
        ⟨"http://l.example/l.png", "01/01",
          [⟨"t1", "http://h.example/h.png", "t2", "http://a.example/a.png", "10:00", none⟩],
          none, none, none⟩ ⟨none, none⟩).renders = [(1080, 1920)] ∧
    ((1920 : ℚ), (1080 : ℚ)) ∉
      (footballHtmlRoute (fun _ => true)
        ⟨fun _ => .netError, fun _ => true, fun _ => "", false⟩ ["srv"] (fun _ => none)
        ⟨none, none, "h", false, "http"⟩ "sid"
        ⟨"http://l.example/l.png", "01/01",
          [⟨"t1", "http://h.example/h.png", "t2", "http://a.example/a.png", "10:00", none⟩],
          none, none, none⟩ ⟨none, none⟩).renders := by
  have h1 : (footballHtmlRoute (fun _ => true)
      ⟨fun _ => .netError, fun _ => true, fun _ => "", false⟩ ["srv"] (fun _ => none)
      ⟨none, none, "h", false, "http"⟩ "sid"
      ⟨"http://l.example/l.png", "01/01",
        [⟨"t1", "http://h.example/h.png", "t2", "http://a.example/a.png", "10:00", none⟩],
        none, none, none⟩ ⟨none, none⟩).renders = [(1080, 1920)] := rfl
  refine ⟨h1, ?_⟩
  rw [h1]
  intro hmem
  simp at hmem

/-- Witness for the amended C6 at a concrete body. -/
theorem c6_witness :
    (footballScheduleRoute (fun _ => true)
        ⟨fun _ => .netError, fun _ => true, fun _ => "", false⟩ ["srv"] (fun _ => none)
        ⟨none, none, "h", false, "http"⟩ "sid"
        ⟨"http://l.example/l.png", "01/01", [], none, none, none⟩ ⟨none, none⟩).renders =
      [(1920, 1080), (1080, 1920), (1080, 1080)] :=
  (c6_three_resolutions_amended (fun _ => true)
      ⟨fun _ => .netError, fun _ => true, fun _ => "", false⟩ ["srv"] (fun _ => none)
      ⟨none, none, "h", false, "http"⟩ "sid" ⟨none, none⟩
      ⟨"http://l.example/l.png", "01/01", [], none, none, none⟩
      ⟨"http://l.example/l.png", none, none, "http://c.example/c.png", none, "T", "D"⟩
      ⟨"http://l.example/l.png", "01/01", [], none, none, none⟩
      (by decide) (by decide) (by decide)).1

/-- C7: every saveImageAndGetLink schedules deletion after a delay in
the 30-to-60-minute range — 60 minutes for the football, movie and
football-html save helper, 30 minutes for the imageGenerate.ts variant —
and each endpoint advertises exactly that delay: expiresIn "1 hour"
(60·60·1000 ms) where the timer is 60 minutes, and expiresAt equal to
response time plus the 30-minute timer in imageGenerate.ts. -/
theorem c7_retention_and_advertised_expiry (cwd : List String) (fs : FSMap) (img : Img)
    (name : String) (req : Req) :
    (saveImageAndGetLink cwd fs img name req).delayMs = 60 * 60 * 1000 ∧
    (saveImageAndGetLinkIG cwd fs img name req).delayMs = 30 * 60 * 1000 ∧
    30 * 60 * 1000 ≤ (saveImageAndGetLink cwd fs img name req).delayMs ∧
    (saveImageAndGetLink cwd fs img name req).delayMs ≤ 60 * 60 * 1000 ∧
    30 * 60 * 1000 ≤ (saveImageAndGetLinkIG cwd fs img name req).delayMs ∧
    (saveImageAndGetLinkIG cwd fs img name req).delayMs ≤ 60 * 60 * 1000 ∧
    (∀ isUrl (w : World) sid (body : FootballBody) (q : QueryFlags),
      validateFootballBody isUrl body = true → parseQFlag q.base64 = false →
        (footballScheduleRoute isUrl w cwd fs req sid body q).expiresIn = some "1 hour" ∧
        (footballScheduleRoute isUrl w cwd fs req sid body q).delays =
          [60 * 60 * 1000, 60 * 60 * 1000, 60 * 60 * 1000]) ∧
    (∀ isUrl (w : World) sid (body : MovieBody) (q : QueryFlags),
      validateMovieBody isUrl body = true → parseQFlag q.base64 = false →
        (movieGenerateRoute isUrl w cwd fs req sid body q).expiresIn = some "1 hour" ∧
        (movieGenerateRoute isUrl w cwd fs req sid body q).delays =
          [60 * 60 * 1000, 60 * 60 * 1000, 60 * 60 * 1000]) ∧
    (∀ isUrl (w : World) sid (body : FootballBody) (q : QueryFlags),
      validateFootballBody isUrl body = true → parseQFlag q.base64 = false →
        (footballHtmlRoute isUrl w cwd fs req sid body q).expiresIn = some "1 hour" ∧
        (footballHtmlRoute isUrl w cwd fs req sid body q).delays = [60 * 60 * 1000]) ∧
    (∀ render sid (body : IGBody) (now : ℕ),
      (imageGenerateRouteIG render cwd fs req sid body now).expiresAtMs =
        now + (saveImageAndGetLinkIG cwd fs img name req).delayMs ∧
      (imageGenerateRouteIG render cwd fs req sid body now).delays =
        [30 * 60 * 1000, 30 * 60 * 1000, 30 * 60 * 1000]) := by
  refine ⟨rfl, rfl, by norm_num [saveImageAndGetLink], by norm_num [saveImageAndGetLink],
    by norm_num [saveImageAndGetLinkIG], by norm_num [saveImageAndGetLinkIG],
    ?_, ?_, ?_, ?_⟩
  · intro isUrl w sid body q hv hq
    unfold footballScheduleRoute
    rw [if_pos hv, hq]
    exact ⟨rfl, rfl⟩
  · intro isUrl w sid body q hv hq
    unfold movieGenerateRoute
    rw [if_pos hv, hq]
    exact ⟨rfl, rfl⟩
  · intro isUrl w sid body q hv hq
    unfold footballHtmlRoute
    rw [if_pos hv, hq]
    exact ⟨rfl, rfl⟩
  · intro render sid body now
    exact ⟨rfl, rfl⟩

/-- Witness for C7 at concrete save calls and requests. -/
theorem c7_witness :
    (saveImageAndGetLink ["srv"] (fun _ => none) (.fetched []) "a.jpg"
        ⟨none, none, "h", false, "http"⟩).delayMs = 60 * 60 * 1000 ∧
    (saveImageAndGetLinkIG ["srv"] (fun _ => none) (.fetched []) "a.jpg"
        ⟨none, none, "h", false, "http"⟩).delayMs = 30 * 60 * 1000 ∧
    (footballScheduleRoute (fun _ => true)
        ⟨fun _ => .netError, fun _ => true, fun _ => "", false⟩ ["srv"] (fun _ => none)
        ⟨none, none, "h", false, "http"⟩ "sid"
        ⟨"http://l.example/l.png", "01/01", [], none, none, none⟩
        ⟨none, none⟩).expiresIn = some "1 hour" ∧
    (imageGenerateRouteIG (fun _ _ _ => .fetched []) ["srv"] (fun _ => none)
        ⟨none, none, "h", false, "http"⟩ "sid"
        ⟨"http://l.example/l.png", none, none, "http://c.example/c.png", none, "T", "D", none⟩
        1000).expiresAtMs = 1000 + 30 * 60 * 1000 := by
  refine ⟨(c7_retention_and_advertised_expiry ["srv"] (fun _ => none) (.fetched []) "a.jpg"
      ⟨none, none, "h", false, "http"⟩).1,
    (c7_retention_and_advertised_expiry ["srv"] (fun _ => none) (.fetched []) "a.jpg"
      ⟨none, none, "h", false, "http"⟩).2.1,
    ((c7_retention_and_advertised_expiry ["srv"] (fun _ => none) (.fetched []) "a.jpg"
      ⟨none, none, "h", false, "http"⟩).2.2.2.2.2.2.1 (fun _ => true)
      ⟨fun _ => .netError, fun _ => true, fun _ => "", false⟩ "sid"
      ⟨"http://l.example/l.png", "01/01", [], none, none, none⟩ ⟨none, none⟩
      (by decide) rfl).1,
    ((c7_retention_and_advertised_expiry ["srv"] (fun _ => none) (.fetched []) "a.jpg"
      ⟨none, none, "h", false, "http"⟩).2.2.2.2.2.2.2.2.2 (fun _ _ _ => .fetched []) "sid"
      ⟨"http://l.example/l.png", none, none, "http://c.example/c.png", none, "T", "D", none⟩
      1000).1⟩

/-- Witness for C9 at a concrete string containing every special
character. -/
theorem c9_witness :
    unescapeXml (escapeXml "a&<>\"\x27b").data = ("a&<>\"\x27b").data :=
  (c9_escapeXml_escaped_roundtrip_injective "a&<>\"\x27b").2.1
